import Mathlib

/-!
# LAB Product Validation Workflow — verification development

Shallow embedding of the generation/validation scripts in
`src/scripts/` (Python).  Python dictionaries/lists coming from the
YAML configuration are modelled by the inductive type `YVal`; Python
exceptions are modelled by `Except String`; `xml.etree.ElementTree`
element trees by `XNode`; the file system seen by the tools by `FS`.

Sections:
 1. Python value model (`YVal`) and the dict/str operations the
    scripts use (`get`, `[]`, `in`, truthiness, `str()`, `join`).
 2. `generate-domain-model.py`: the f-string builders
    `generate_entity_xml` / `generate_enumeration_xml` and the
    hard-coded entity/enumeration tables of `main`.
 3. An XML well-formedness parser modelling `xml.etree.ElementTree.parse`
    as used by `validate-lab-project.py::validate_xml_syntax`.
 4. The ElementTree-based builders of `generate-enumerations.py` and
    `generate-microflows.py`, and the `minidom.toprettyxml` serializer
    (`format_xml_output`).
 5. Config loader (`load_config` of the ET-based generators), the
    generators' `main` exit codes, the validator and the packager.
 6. Theorems for the spec claims.
-/

set_option maxHeartbeats 1000000
set_option maxRecDepth 100000

namespace LabGen

/-! ## 1. Python value model -/

/-- A YAML/Python value as produced by `yaml.safe_load`: strings,
integers, booleans, `None`, lists and string-keyed dictionaries. -/
inductive YVal where
  | str (s : String)
  | int (n : Int)
  | bool (b : Bool)
  | null
  | list (xs : List YVal)
  | map (kvs : List (String × YVal))
  deriving Repr, Inhabited

namespace YVal

/-- Lookup in an insertion-ordered Python dict. -/
def lookup : List (String × YVal) → String → Option YVal
  | [], _ => none
  | (k, v) :: rest, key => if k = key then some v else lookup rest key

/-- Python `key in d` for a dict `d` (we only need the dict case;
the scripts apply it after `.get` has already established the value
is a dict). -/
def hasKey (kvs : List (String × YVal)) (key : String) : Bool :=
  (lookup kvs key).isSome

/-- Python `d.get(key, default)` on a value already known to be a dict. -/
def getD (kvs : List (String × YVal)) (key : String) (default : YVal) : YVal :=
  (lookup kvs key).getD default

/-- Python `d[key]`: `KeyError` when the key is absent, `TypeError`
when the value is not a dict. -/
def getItem (v : YVal) (key : String) : Except String YVal :=
  match v with
  | .map kvs =>
    match lookup kvs key with
    | some x => .ok x
    | none => .error ("KeyError: " ++ key)
  | _ => .error "TypeError: value is not subscriptable"

/-- Python `d.get(key, default)`: `AttributeError` when the value is
not a dict. -/
def getAttr (v : YVal) (key : String) (default : YVal) : Except String YVal :=
  match v with
  | .map kvs => .ok (getD kvs key default)
  | _ => .error "AttributeError: object has no attribute get"

/-- Python truthiness. -/
def truthy : YVal → Bool
  | .str s => s != ""
  | .int n => n != 0
  | .bool b => b
  | .null => false
  | .list xs => !xs.isEmpty
  | .map kvs => !kvs.isEmpty

/-- Python hashability (`dict.get(key)` with an unhashable key raises
`TypeError`). -/
def hashable : YVal → Bool
  | .list _ => false
  | .map _ => false
  | _ => true

/-- The ASCII apostrophe, used by Python `repr` of strings. -/
def sq : String := String.singleton (Char.ofNat 39)

mutual

/-- Python `repr` (close enough for the values the scripts format:
no escape handling inside strings). -/
def reprPy : YVal → String
  | .str s => sq ++ s ++ sq
  | .int n => toString n
  | .bool b => if b then "True" else "False"
  | .null => "None"
  | .list xs => "[" ++ String.intercalate ", " (reprList xs) ++ "]"
  | .map kvs => "\x7b" ++ String.intercalate ", " (reprMap kvs) ++ "\x7d"

def reprList : List YVal → List String
  | [] => []
  | x :: xs => reprPy x :: reprList xs

def reprMap : List (String × YVal) → List String
  | [] => []
  | (k, v) :: kvs => (sq ++ k ++ sq ++ ": " ++ reprPy v) :: reprMap kvs

end

/-- Python `str()` / f-string formatting of a value. -/
def strPy : YVal → String
  | .str s => s
  | v => reprPy v

/-- Python `", ".join(x)`: joins an iterable of strings; raises
`TypeError` if `x` is not a list of strings (the scripts only ever
pass lists; a string argument would be joined character-wise, which we
also model). -/
def joinComma (v : YVal) : Except String String :=
  match v with
  | .list xs => do
    let strs ← xs.mapM (fun x => match x with
      | .str s => Except.ok s
      | _ => Except.error "TypeError: sequence item is not str")
    .ok (String.intercalate ", " strs)
  | .str s => .ok (String.intercalate ", " (s.data.map String.singleton))
  | _ => .error "TypeError: can only join an iterable"

end YVal

/-! ## 2. `generate-domain-model.py` — f-string builders

`generate_entity_xml` (lines 26–84) and `generate_enumeration_xml`
(lines 86–105) build documents by f-string templating, with **no**
XML escaping of the interpolated values.  `attr['type']` and
`attr['name']` are mandatory dictionary accesses (KeyError when
absent); `description` and `enum_name` fall back to defaults. -/

/-- The `type_mapping` dict of `generate_entity_xml` together with its
`.get(attr_type, 'String')` access.  A non-hashable key (list/dict)
raises `TypeError`; any hashable key outside the table maps to
`"String"`. -/
def typeMappingGet (attrType : YVal) : Except String String :=
  if ¬ attrType.hashable then .error "TypeError: unhashable type" else
  .ok (match attrType with
    | .str "String" => "String"
    | .str "Integer" => "Integer"
    | .str "Boolean" => "Boolean"
    | .str "DateTime" => "DateTime"
    | .str "Decimal" => "Decimal"
    | .str "Enum" => "Enumeration"
    | _ => "String")

/-- Loop body of `generate_entity_xml` for one attribute record
(lines 34–68): produces the fragment appended to `attributes_xml`. -/
def entityAttrXml (attr : YVal) : Except String String := do
  let attrType ← attr.getItem "type"
  let attrName ← attr.getItem "name"
  let attrDesc ← attr.getAttr "description" (.str (YVal.strPy attrName ++ " attribute"))
  let mendixType ← typeMappingGet attrType
  if mendixType = "String" then
    pure ("\n        <attribute name=\"" ++ YVal.strPy attrName ++ "\" type=\"" ++ mendixType
      ++ "\">\n            <documentation>" ++ YVal.strPy attrDesc
      ++ "</documentation>\n            <value></value>\n        </attribute>")
  else if mendixType = "Enumeration" then do
    let enumName ← attr.getAttr "enum_name" (.str (YVal.strPy attrName ++ "Enum"))
    pure ("\n        <attribute name=\"" ++ YVal.strPy attrName ++ "\" type=\"" ++ mendixType
      ++ "\">\n            <documentation>" ++ YVal.strPy attrDesc
      ++ "</documentation>\n            <enumeration>" ++ YVal.strPy enumName
      ++ "</enumeration>\n        </attribute>")
  else
    pure ("\n        <attribute name=\"" ++ YVal.strPy attrName ++ "\" type=\"" ++ mendixType
      ++ "\">\n            <documentation>" ++ YVal.strPy attrDesc
      ++ "</documentation>\n        </attribute>")

/-- `generate_entity_xml(entity_name, attributes, generalization=None)`
(lines 26–84 of `generate-domain-model.py`). -/
def generate_entity_xml (entityName : String) (attributes : List YVal)
    (generalization : Option String := none) : Except String String := do
  let generalizationXml :=
    match generalization with
    | some g => "<generalization>System." ++ g ++ "</generalization>"
    | none => ""
  let attributesXml ← attributes.foldlM (fun acc a => do pure (acc ++ (← entityAttrXml a))) ""
  pure ("<?xml version=\"1.0\" encoding=\"UTF-8\"?>\n"
    ++ "<entity xmlns=\"http://www.mendix.com/metamodel/Domain/7.0.0\" \n"
    ++ "        xmlns:xsi=\"http://www.w3.org/2001/XMLSchema-instance\" \n"
    ++ "        name=\"" ++ entityName ++ "\">\n"
    ++ "    <documentation>LAB Workflow Entity: " ++ entityName
    ++ " - Generated for Mendix 10.18.1</documentation>\n"
    ++ "    " ++ generalizationXml ++ "\n"
    ++ "    <attributes>" ++ attributesXml ++ "\n"
    ++ "    </attributes>\n"
    ++ "    <associations></associations>\n"
    ++ "    <indexes></indexes>\n"
    ++ "    <rules></rules>\n"
    ++ "    <eventHandlers></eventHandlers>\n"
    ++ "</entity>")

/-- Loop body of `generate_enumeration_xml` in `generate-domain-model.py`
(lines 90–94): one `<value>` fragment; `value['name']` and
`value['caption']` are mandatory accesses. -/
def dmEnumValueXml (value : YVal) : Except String String := do
  let name ← value.getItem "name"
  let caption ← value.getItem "caption"
  pure ("\n        <value name=\"" ++ YVal.strPy name
    ++ "\">\n            <caption defaultValue=\"" ++ YVal.strPy caption
    ++ "\"/>\n        </value>")

/-- `generate_enumeration_xml(enum_name, values)` of
`generate-domain-model.py` (lines 86–105). -/
def dm_generate_enumeration_xml (enumName : String) (values : List YVal) :
    Except String String := do
  let valuesXml ← values.foldlM (fun acc v => do pure (acc ++ (← dmEnumValueXml v))) ""
  pure ("<?xml version=\"1.0\" encoding=\"UTF-8\"?>\n"
    ++ "<enumeration xmlns=\"http://www.mendix.com/metamodel/Domain/7.0.0\" \n"
    ++ "             xmlns:xsi=\"http://www.w3.org/2001/XMLSchema-instance\" \n"
    ++ "             name=\"" ++ enumName ++ "\">\n"
    ++ "    <documentation>LAB Workflow Enumeration: " ++ enumName ++ "</documentation>\n"
    ++ "    <values>" ++ valuesXml ++ "\n"
    ++ "    </values>\n"
    ++ "</enumeration>")

/-! ## 3. XML well-formedness / parsing

`validate-lab-project.py::validate_xml_syntax` (lines 14–20) accepts a
file iff `xml.etree.ElementTree.parse` does.  We model that parser as
a character-level state machine covering the XML subset the generated
documents live in: one root element, start/end/empty tags, attributes
in single or double quotes, character data, the five predefined entity
references plus numeric character references, comments, and
processing instructions / the XML declaration (which ElementTree's
tree builder discards, merging surrounding text).  Raw `&` and `<` in
attribute values and text are rejected, mismatched or duplicate
attributes and mismatched tags are rejected — as `ET.parse` does. -/

/-- A parsed XML tree: elements (tag, attributes in document order,
children) and text nodes.  Comments and processing instructions are
discarded, as `ElementTree`'s default tree builder does. -/
inductive XTree where
  | elem (tag : String) (attrs : List (String × String)) (children : List XTree)
  | text (s : String)
  deriving Repr, Inhabited

/-- Whitespace per the XML spec. -/
def isXmlWs (c : Char) : Bool :=
  c = ' ' || c = '\t' || c = '\n' || c = '\r'

/-- Characters we allow in element/attribute names (a permissive
ASCII approximation of XML name characters; all names in this
repository's documents are ASCII letters plus `:`). -/
def isNameChar (c : Char) : Bool :=
  c.isAlphanum || c = '_' || c = '-' || c = '.' || c = ':'

/-- Decimal digit list to a number. -/
def decDigitsToNat (ds : List Char) : Option Nat :=
  if ds.isEmpty || !ds.all (·.isDigit) then none
  else some (ds.foldl (fun n c => n * 10 + (c.toNat - 48)) 0)

/-- Hexadecimal digit list to a number. -/
def hexDigitsToNat (ds : List Char) : Option Nat :=
  if ds.isEmpty || !ds.all (fun c => c.isDigit
      || (97 ≤ c.toNat && c.toNat ≤ 102) || (65 ≤ c.toNat && c.toNat ≤ 70)) then none
  else some (ds.foldl (fun n c =>
    n * 16 + (if c.isDigit then c.toNat - 48
      else if 97 ≤ c.toNat then c.toNat - 87 else c.toNat - 55)) 0)

/-- Decode an entity reference body (between `&` and `;`): the five
predefined names plus decimal/hex character references. -/
def decodeRef (ref : List Char) : Option Char :=
  match ref with
  | ['a', 'm', 'p'] => some '&'
  | ['l', 't'] => some '<'
  | ['g', 't'] => some '>'
  | ['q', 'u', 'o', 't'] => some '"'
  | ['a', 'p', 'o', 's'] => some (Char.ofNat 39)
  | '#' :: 'x' :: ds => (hexDigitsToNat ds).map Char.ofNat
  | '#' :: 'X' :: ds => (hexDigitsToNat ds).map Char.ofNat
  | '#' :: ds => (decDigitsToNat ds).map Char.ofNat
  | _ => none

/-- Parser mode.  Accumulators hold characters read so far; the
pending-text accumulator rides along through tags and comments so that
text separated only by comments/PIs merges, as in `ElementTree`. -/
inductive PMode where
  | txt (acc : List Char)
  | txtRef (acc : List Char) (ref : List Char)
  | ltSeen (acc : List Char)
  | openName (nm : List Char)
  | inTag (tag : String) (attrs : List (String × String))
  | attrNm (tag : String) (attrs : List (String × String)) (an : List Char)
  | attrPostNm (tag : String) (attrs : List (String × String)) (an : String)
  | attrEq (tag : String) (attrs : List (String × String)) (an : String)
  | attrVal (tag : String) (attrs : List (String × String)) (an : String)
      (q : Char) (acc : List Char)
  | attrRef (tag : String) (attrs : List (String × String)) (an : String)
      (q : Char) (acc : List Char) (ref : List Char)
  | selfClose (tag : String) (attrs : List (String × String))
  | closeNm (acc : List Char) (nm : List Char)
  | closeWs (acc : List Char) (nm : String)
  | bang (acc : List Char)
  | bangDash (acc : List Char)
  | comBody (acc : List Char)
  | comDash (acc : List Char)
  | comDashDash (acc : List Char)
  | pi (acc : List Char)
  | piQ (acc : List Char)
  deriving Repr, Inhabited

/-- An open-element frame: tag, attributes, children accumulated in
reverse order. -/
abbrev PFrame := String × List (String × String) × List XTree

/-- Parser state: open-element stack (innermost first), finished
top-level nodes (reverse order), current mode. -/
structure PState where
  stack : List PFrame
  tops : List XTree
  mode : PMode
  deriving Repr, Inhabited

/-- Attach a finished node to the innermost open element, or to the
top level if no element is open. -/
def addNode (st : PState) (n : XTree) : PState :=
  match st.stack with
  | (t, as_, cs) :: rest => { st with stack := (t, as_, n :: cs) :: rest }
  | [] => { st with tops := n :: st.tops }

/-- Flush pending text as a text-node child of the innermost open
element.  Top-level text can only be whitespace (the step function
rejects anything else) and is discarded. -/
def flushTxt (st : PState) (acc : List Char) : PState :=
  if acc.isEmpty then st
  else match st.stack with
    | [] => st
    | _ => addNode st (.text (String.mk acc))

/-- Close the innermost open element, checking the end-tag name. -/
def closeElem (st : PState) (acc : List Char) (nm : String) : Option PState :=
  let st := flushTxt st acc
  match st.stack with
  | [] => none
  | (t, as_, cs) :: rest =>
    if t = nm then
      some (addNode { st with stack := rest } (.elem t as_ cs.reverse))
    else none

/-- One step of the XML parser on one character. -/
def step (st : PState) (c : Char) : Option PState :=
  match st.mode with
  | .txt acc =>
    if c = '<' then some { st with mode := .ltSeen acc }
    else if c = '&' then
      if st.stack.isEmpty then none else some { st with mode := .txtRef acc [] }
    else if isXmlWs c then some { st with mode := .txt (acc ++ [c]) }
    else if st.stack.isEmpty then none
    else some { st with mode := .txt (acc ++ [c]) }
  | .txtRef acc ref =>
    if c = ';' then
      match decodeRef ref with
      | some d => some { st with mode := .txt (acc ++ [d]) }
      | none => none
    else some { st with mode := .txtRef acc (ref ++ [c]) }
  | .ltSeen acc =>
    if c = '/' then some { st with mode := .closeNm acc [] }
    else if c = '!' then some { st with mode := .bang acc }
    else if c = '?' then some { st with mode := .pi acc }
    else if isNameChar c then
      some { flushTxt st acc with mode := .openName [c] }
    else none
  | .openName nm =>
    if isNameChar c then some { st with mode := .openName (nm ++ [c]) }
    else if isXmlWs c then some { st with mode := .inTag (String.mk nm) [] }
    else if c = '>' then
      some { st with stack := (String.mk nm, [], []) :: st.stack, mode := .txt [] }
    else if c = '/' then some { st with mode := .selfClose (String.mk nm) [] }
    else none
  | .inTag t as_ =>
    if isXmlWs c then some { st with mode := .inTag t as_ }
    else if isNameChar c then some { st with mode := .attrNm t as_ [c] }
    else if c = '>' then
      some { st with stack := (t, as_, []) :: st.stack, mode := .txt [] }
    else if c = '/' then some { st with mode := .selfClose t as_ }
    else none
  | .attrNm t as_ an =>
    if isNameChar c then some { st with mode := .attrNm t as_ (an ++ [c]) }
    else if c = '=' then some { st with mode := .attrEq t as_ (String.mk an) }
    else if isXmlWs c then some { st with mode := .attrPostNm t as_ (String.mk an) }
    else none
  | .attrPostNm t as_ an =>
    if isXmlWs c then some st
    else if c = '=' then some { st with mode := .attrEq t as_ an }
    else none
  | .attrEq t as_ an =>
    if isXmlWs c then some st
    else if c = '"' || c = Char.ofNat 39 then
      some { st with mode := .attrVal t as_ an c [] }
    else none
  | .attrVal t as_ an q acc =>
    if c = q then
      if (as_.map Prod.fst).contains an then none
      else some { st with mode := .inTag t (as_ ++ [(an, String.mk acc)]) }
    else if c = '<' then none
    else if c = '&' then some { st with mode := .attrRef t as_ an q acc [] }
    else some { st with mode := .attrVal t as_ an q (acc ++ [c]) }
  | .attrRef t as_ an q acc ref =>
    if c = ';' then
      match decodeRef ref with
      | some d => some { st with mode := .attrVal t as_ an q (acc ++ [d]) }
      | none => none
    else some { st with mode := .attrRef t as_ an q acc (ref ++ [c]) }
  | .selfClose t as_ =>
    if c = '>' then
      some { addNode st (.elem t as_ []) with mode := .txt [] }
    else none
  | .closeNm acc nm =>
    if isNameChar c then some { st with mode := .closeNm acc (nm ++ [c]) }
    else if c = '>' then
      if nm.isEmpty then none
      else (closeElem st acc (String.mk nm)).map (fun st2 => { st2 with mode := .txt [] })
    else if isXmlWs c then
      if nm.isEmpty then none else some { st with mode := .closeWs acc (String.mk nm) }
    else none
  | .closeWs acc nm =>
    if isXmlWs c then some st
    else if c = '>' then
      (closeElem st acc nm).map (fun st2 => { st2 with mode := .txt [] })
    else none
  | .bang acc =>
    if c = '-' then some { st with mode := .bangDash acc } else none
  | .bangDash acc =>
    if c = '-' then some { st with mode := .comBody acc } else none
  | .comBody acc =>
    if c = '-' then some { st with mode := .comDash acc }
    else some { st with mode := .comBody acc }
  | .comDash acc =>
    if c = '-' then some { st with mode := .comDashDash acc }
    else some { st with mode := .comBody acc }
  | .comDashDash acc =>
    if c = '>' then some { st with mode := .txt acc } else none
  | .pi acc =>
    if c = '?' then some { st with mode := .piQ acc }
    else some { st with mode := .pi acc }
  | .piQ acc =>
    if c = '>' then some { st with mode := .txt acc }
    else if c = '?' then some { st with mode := .piQ acc }
    else some { st with mode := .pi acc }

/-- Run the parser over a character list. -/
def runP (st : PState) : List Char → Option PState
  | [] => some st
  | c :: cs =>
    match step st c with
    | some st2 => runP st2 cs
    | none => none

/-- Initial parser state. -/
def initP : PState := { stack := [], tops := [], mode := .txt [] }

/-- Accept a final state: all tags closed, in character-data mode, and
exactly one top-level element. -/
def finalizeP (st : PState) : Option XTree :=
  match st.mode, st.stack, st.tops with
  | .txt _, [], [root] => some root
  | _, _, _ => none

/-- The model of `xml.etree.ElementTree.parse` on a document string:
`some tree` iff the document is well-formed (within the subset
described above). -/
def parseXml (s : String) : Option XTree :=
  match runP initP s.data with
  | some st => finalizeP st
  | none => none

/-- `validate_xml_syntax` (validate-lab-project.py lines 14–20):
`True` iff the content parses. -/
def validate_xml_syntax (content : String) : Bool :=
  (parseXml content).isSome

/-! ## 4. ElementTree-based builders and the minidom serializer

`generate-enumerations.py` and `generate-microflows.py` build
`xml.etree.ElementTree` trees.  Attribute values and element text are
arbitrary Python objects at build time (`.set` stores them as-is);
serialization (`ET.tostring`) raises `TypeError` for non-strings.
`format_xml_output` = `tostring` → `minidom.parseString` →
`toprettyxml(indent="  ")` → drop the first line; since parsing the
just-serialized tree reproduces it, we model the composite directly
as a pretty-printer over the tree. -/

/-- An ElementTree element tree as the generators build it: tag,
attributes in `.set` order (values arbitrary Python objects), the
`.text` slot, children in append order; plus comment nodes. -/
inductive XNode where
  | elem (tag : String) (attrs : List (String × YVal)) (txt : Option YVal)
      (children : List XNode)
  | comment (data : String)
  deriving Repr, Inhabited

/-- Python iteration `for x in v`: lists yield elements, strings yield
characters, dicts yield keys; other values raise `TypeError`. -/
def pyIter : YVal → Except String (List YVal)
  | .list xs => .ok xs
  | .str s => .ok (s.data.map (fun c => .str (String.singleton c)))
  | .map kvs => .ok (kvs.map (fun kv => .str kv.1))
  | _ => .error "TypeError: object is not iterable"

/-- Loop body of `generate_enumeration_xml` in
`generate-enumerations.py` (lines 166–179): builds one `<value>`
element.  `value.get` raises `AttributeError` when the record is not a
dict; a missing `caption` falls back to `value.get('name',
'UnknownValue')`; a `description` adds a `<documentation>` child. -/
def genValueElem (value : YVal) : Except String XNode :=
  match value with
  | .map kvs =>
    let nameAttr := YVal.getD kvs "name" (.str "UnknownValue")
    let captionAttr :=
      match YVal.lookup kvs "caption" with
      | some cv => cv
      | none => YVal.getD kvs "name" (.str "UnknownValue")
    let children :=
      match YVal.lookup kvs "description" with
      | some d => [XNode.elem "documentation" [] (some d) []]
      | none => []
    .ok (.elem "value" [("name", nameAttr), ("caption", captionAttr)] none children)
  | _ => .error "AttributeError: object has no attribute get"

/-- `generate_enumeration_xml(enum_config)` of
`generate-enumerations.py` (lines 150–185), without the enclosing
`try/except` (the caller treats `.error` as the `None` return). -/
def generate_enumeration_xml (cfg : YVal) : Except String XNode :=
  match cfg with
  | .map kvs => do
    let nameAttr := YVal.getD kvs "name" (.str "UnknownEnumeration")
    let docChildren :=
      match YVal.lookup kvs "description" with
      | some d => [XNode.elem "documentation" [] (some d) []]
      | none => []
    if ((YVal.lookup kvs "values").map YVal.truthy).getD false then
      let vs ← pyIter ((YVal.lookup kvs "values").getD .null)
      let valueElems ← vs.mapM genValueElem
      pure (.elem "enumeration" [("name", nameAttr)] none
        (docChildren ++ [.elem "values" [] none valueElems]))
    else
      pure (.elem "enumeration" [("name", nameAttr)] none docChildren)
  | _ => .error "AttributeError: object has no attribute get"

/-! ### `generate_microflow_xml` (generate-microflows.py lines 162–357)

The builder interpolates `datetime.now().strftime('%Y-%m-%d %H:%M:%S')`
into its header comment, so the generation timestamp is an input of
the embedded function (`now`). -/

/-- Header comment text of `generate_microflow_xml` (lines 171–188). -/
def mfHeaderComment (nm ty : String) (now : String) (desc roles : String) : String :=
  "\n=== LAB WORKFLOW MICROFLOW ===\nName: " ++ nm
  ++ "\nType: " ++ ty
  ++ "\nCompatible with: Mendix 10.18.1, Workflow Commons 3.12.1\nGenerated: " ++ now
  ++ "\n\nPurpose: " ++ desc
  ++ "\nSecurity: Restricted to roles - " ++ roles
  ++ "\nUsage: Called from workflow steps, pages, or other microflows\n\n"
  ++ "IMPLEMENTATION NOTES:\n"
  ++ "- This is a template structure - implement actual business logic\n"
  ++ "- Add proper error handling and validation\n"
  ++ "- Use consistent naming conventions \x20\n"
  ++ "- Log important actions for audit trail\n"
  ++ "- Test with different user roles\n"

/-- Documentation text of `generate_microflow_xml` (lines 194–215). -/
def mfDocText (desc roles retTy : String) : String :=
  "\n" ++ desc
  ++ "\n\n=== IMPLEMENTATION GUIDE ===\n\n"
  ++ "For Mendix 10.18.1 implementation:\n"
  ++ "1. Add input validation at the start\n"
  ++ "2. Implement core business logic\n"
  ++ "3. Add error handling (try-catch blocks)\n"
  ++ "4. Log actions to audit trail\n"
  ++ "5. Return appropriate values\n"
  ++ "6. Test with different user roles\n\n"
  ++ "Security Roles: " ++ roles
  ++ "\nReturn Type: " ++ retTy
  ++ "\n\nBusiness Rules:\n"
  ++ "- Validate all input parameters\n"
  ++ "- Check user permissions\n"
  ++ "- Update audit trail\n"
  ++ "- Handle error scenarios gracefully\n"

/-- Flow-structure comment of `generate_microflow_xml` (lines 273–291). -/
def mfFlowComment : String :=
  "\nMICROFLOW FLOW STRUCTURE for Mendix 10.18.1\n"
  ++ "This is a template - implement actual logic:\n\n"
  ++ "1. START EVENT - Entry point\n"
  ++ "2. INPUT VALIDATION - Validate all parameters\n"
  ++ "3. PERMISSION CHECK - Verify user permissions \x20\n"
  ++ "4. BUSINESS LOGIC - Core functionality\n"
  ++ "5. AUDIT LOGGING - Record action\n"
  ++ "6. ERROR HANDLING - Handle exceptions\n"
  ++ "7. END EVENT - Return result\n\n"
  ++ "Remember to:\n"
  ++ "- Add proper activities between start and end\n"
  ++ "- Use consistent variable naming\n"
  ++ "- Add error handling paths\n"
  ++ "- Log important actions\n"
  ++ "- Test thoroughly\n"

/-- Implementation-checklist comment of `generate_microflow_xml`
(lines 329–350). -/
def mfImplComment (nm : String) : String :=
  "\nIMPLEMENTATION CHECKLIST for " ++ nm ++ ":\n\n"
  ++ "□ Input validation added\n"
  ++ "□ Permission checks implemented \x20\n"
  ++ "□ Core business logic completed\n"
  ++ "□ Error handling paths added\n"
  ++ "□ Audit trail logging included\n"
  ++ "□ Return values configured\n"
  ++ "□ Security roles tested\n"
  ++ "□ Performance optimized\n"
  ++ "□ Documentation updated\n"
  ++ "□ Unit tests created\n\n"
  ++ "Mendix 10.18.1 Best Practices:\n"
  ++ "- Use proper activity naming\n"
  ++ "- Add meaningful comments\n"
  ++ "- Handle null values\n"
  ++ "- Use consistent error messages\n"
  ++ "- Log important actions\n"
  ++ "- Test with different data scenarios\n"

/-- The fixed `<flow>` element every microflow gets (lines 269–326):
a flow comment, a start event, three TODO comments, an end event and
one sequence flow from `start` to `end`. -/
def mfFlowElem : XNode :=
  .elem "flow" [] none
    [ .comment mfFlowComment,
      .comment " START EVENT - Microflow entry point ",
      .elem "start" [("id", .str "start"), ("name", .str "Start")] none [],
      .comment " TODO: Add input validation activities here ",
      .comment " TODO: Add core business logic activities here ",
      .comment " TODO: Add audit trail logging here ",
      .comment " END EVENT - Microflow exit point ",
      .elem "end" [("id", .str "end"), ("name", .str "End")] none [],
      .comment " SEQUENCE FLOW - Connect activities in logical order ",
      .elem "sequenceFlow"
        [("id", .str "flow1"), ("sourceRef", .str "start"), ("targetRef", .str "end")]
        none [] ]

/-- Loop body for one parameter record (lines 225–242): a detail
comment followed by the `<parameter>` element with its documentation
child.  `i` is the 0-based `enumerate` index. -/
def mfParamNodes (i : Nat) (param : YVal) : Except String (List XNode) := do
  let nm ← param.getAttr "name" (.str "Unknown")
  let ty ← param.getAttr "type" (.str "String")
  let nmP ← param.getAttr "name" (.str "UnknownParam")
  let desc ← param.getAttr "description" (.str "Input parameter for LAB workflow operation")
  let detail := " Parameter " ++ toString (i + 1) ++ ": " ++ YVal.strPy nm
    ++ " (" ++ YVal.strPy ty ++ ") "
  let docText := "\nParameter: " ++ YVal.strPy nm
    ++ "\nType: " ++ YVal.strPy ty
    ++ "\nRequired: Yes\nDescription: " ++ YVal.strPy desc
    ++ "\nValidation: Validate this parameter at microflow start\n"
  pure [ .comment detail,
         .elem "parameter" [("name", nmP), ("type", ty)] none
           [.elem "documentation" [] (some (.str docText)) []] ]

/-- The documentation block of `generate_microflow_xml`
(lines 191–215): present iff the record has a `description`. -/
def mfDocSegment (kvs : List (String × YVal)) : Except String (List XNode) :=
  match YVal.lookup kvs "description" with
  | some d => do
    let rolesJoined2 ← YVal.joinComma (YVal.getD kvs "security_roles" (.list [.str "All"]))
    pure [XNode.elem "documentation" [] (some (.str (mfDocText
      (YVal.strPy d) rolesJoined2
      (YVal.strPy (YVal.getD kvs "return_type" (.str "None")))))) []]
  | none => pure ([] : List XNode)

/-- The parameters block (lines 217–242): present iff `parameters` is
present and truthy. -/
def mfParamSegment (kvs : List (String × YVal)) : Except String (List XNode) :=
  if ((YVal.lookup kvs "parameters").map YVal.truthy).getD false then do
    let ps ← pyIter ((YVal.lookup kvs "parameters").getD .null)
    let sectionC := XNode.comment
      (" INPUT PARAMETERS - " ++ toString ps.length ++ " parameters defined ")
    let body ← ps.enum.mapM (fun p => mfParamNodes p.1 p.2)
    pure [XNode.elem "parameters" [] none (sectionC :: body.flatten)]
  else pure ([] : List XNode)

/-- The return-type block (lines 244–251). -/
def mfReturnSegment (kvs : List (String × YVal)) : Except String (List XNode) :=
  match YVal.lookup kvs "return_type" with
  | some rt =>
    pure [XNode.elem "returnType" [("type", rt)] none
      [.comment (" RETURN TYPE: " ++ YVal.strPy rt
        ++ " - Document what this microflow returns ")]]
  | none => pure ([] : List XNode)

/-- The security block (lines 253–267). -/
def mfSecuritySegment (kvs : List (String × YVal)) : Except String (List XNode) :=
  match YVal.lookup kvs "security_roles" with
  | some roles => do
    let joined ← YVal.joinComma roles
    let rs ← pyIter roles
    let roleElems := rs.map (fun r => XNode.elem "allowedRole" [("name", r)] none
      [.comment (" Role: " ++ YVal.strPy r
        ++ " - Ensure users have this role to execute microflow ")])
    pure [XNode.elem "security" [] none
      (XNode.comment (" SECURITY CONFIGURATION - Restricted to: " ++ joined ++ " ")
        :: roleElems)]
  | none => pure ([] : List XNode)

/-- `generate_microflow_xml(microflow_config)` (lines 162–357),
without the enclosing `try/except`; `now` is the
`datetime.now().strftime('%Y-%m-%d %H:%M:%S')` reading taken while
building the header comment. -/
def generate_microflow_xml (now : String) (cfg : YVal) : Except String XNode :=
  match cfg with
  | .map kvs => do
    let nameAttr := YVal.getD kvs "name" (.str "UnknownMicroflow")
    let typeAttr := YVal.getD kvs "type" (.str "action")
    let rolesJoined ← YVal.joinComma (YVal.getD kvs "security_roles" (.list [.str "All users"]))
    let headerC := XNode.comment (mfHeaderComment
      (YVal.strPy (YVal.getD kvs "name" (.str "Unknown")))
      (YVal.strPy (YVal.getD kvs "type" (.str "action")))
      now
      (YVal.strPy (YVal.getD kvs "description" (.str "LAB workflow operation")))
      rolesJoined)
    let docNodes ← mfDocSegment kvs
    let paramNodes ← mfParamSegment kvs
    let returnNodes ← mfReturnSegment kvs
    let securityNodes ← mfSecuritySegment kvs
    let implC := XNode.comment (mfImplComment
      (YVal.strPy (YVal.getD kvs "name" (.str "Unknown"))))
    pure (.elem "microflow" [("name", nameAttr), ("type", typeAttr)] none
      (headerC :: docNodes ++ paramNodes ++ returnNodes ++ securityNodes
        ++ [mfFlowElem, implC]))
  | _ => .error "AttributeError: object has no attribute get"

/-! ### Serializer: `create_mendix_xml_header` and `format_xml_output` -/

/-- `create_mendix_xml_header()` (both ET-based generators). -/
def create_mendix_xml_header : String :=
  "<?xml version=\"1.0\" encoding=\"UTF-8\"?>\n"

/-- `xml.dom.minidom`'s `_write_data` escaping, applied to attribute
values and text by `toprettyxml`. -/
def escMinidom (s : String) : String :=
  String.join (s.data.map (fun c =>
    if c = '&' then "&amp;"
    else if c = '<' then "&lt;"
    else if c = '"' then "&quot;"
    else if c = '>' then "&gt;"
    else String.singleton c))

/-- Render the attribute string ` k="v"`, raising the `TypeError` that
`ET.tostring` raises for a non-string attribute value. -/
def prettyAttrs (attrs : List (String × YVal)) : Except String String :=
  attrs.foldlM (fun acc kv =>
    match kv.2 with
    | .str s => .ok (acc ++ " " ++ kv.1 ++ "=\"" ++ escMinidom s ++ "\"")
    | _ => .error "TypeError: cannot serialize attribute value") ""

mutual

/-- `minidom` `writexml` with `indent="  "`, `newl="\n"`, on the
reparsed tree (the `.text` slot becomes a leading text child; an
element whose only DOM child is text is written inline). -/
def prettyNode (ind : String) : XNode → Except String String
  | .comment data => .ok (ind ++ "<!--" ++ data ++ "-->\n")
  | .elem tag attrs txt children => do
    let astr ← prettyAttrs attrs
    let headText ←
      match txt with
      | none => pure (none : Option String)
      | some tv =>
        if YVal.truthy tv then
          match tv with
          | .str s => pure (some s)
          | _ => Except.error "TypeError: cannot serialize text"
        else pure (none : Option String)
    match headText, children with
    | none, [] => pure (ind ++ "<" ++ tag ++ astr ++ "/>\n")
    | some s, [] => pure (ind ++ "<" ++ tag ++ astr ++ ">" ++ escMinidom s
        ++ "</" ++ tag ++ ">\n")
    | none, cs => do
      let body ← prettyList (ind ++ "  ") cs
      pure (ind ++ "<" ++ tag ++ astr ++ ">\n" ++ body ++ ind ++ "</" ++ tag ++ ">\n")
    | some s, cs => do
      let body ← prettyList (ind ++ "  ") cs
      pure (ind ++ "<" ++ tag ++ astr ++ ">\n"
        ++ (ind ++ "  " ++ escMinidom s ++ "\n") ++ body ++ ind ++ "</" ++ tag ++ ">\n")

def prettyList (ind : String) : List XNode → Except String String
  | [] => pure ""
  | n :: ns => do
    let s ← prettyNode ind n
    let rest ← prettyList ind ns
    pure (s ++ rest)

end

/-- `format_xml_output(element)` (generate-enumerations.py /
generate-microflows.py lines 363–368): `tostring` → `parseString` →
`toprettyxml(indent="  ")`, dropping the `<?xml version="1.0" ?>`
line the round-trip adds. -/
def format_xml_output (root : XNode) : Except String String :=
  prettyNode "" root

instance {ε α : Type} [DecidableEq ε] [DecidableEq α] : DecidableEq (Except ε α) := fun a b =>
  match a, b with
  | .ok x, .ok y => if h : x = y then isTrue (by simp [h]) else isFalse (by simp [h])
  | .error x, .error y => if h : x = y then isTrue (by simp [h]) else isFalse (by simp [h])
  | .ok _, .error _ => isFalse (by simp)
  | .error _, .ok _ => isFalse (by simp)

/-! ## 2b. `generate-domain-model.py::main` (lines 107–377)

`main` loads the configuration (line 115) but then generates from two
**hard-coded** tables (lines 129–247 and 264–361); the configuration
does not influence what is generated.  We model the file-producing
part of `main` as the list of `(path, content)` pairs written under
the `--output` directory. -/

/-- Shorthand for one hard-coded attribute record. -/
def attrY (n t d : String) : YVal :=
  .map [("name", .str n), ("type", .str t), ("description", .str d)]

/-- Shorthand for one hard-coded `Enum`-typed attribute record. -/
def attrYE (n e d : String) : YVal :=
  .map [("name", .str n), ("type", .str "Enum"), ("enum_name", .str e),
        ("description", .str d)]

/-- Shorthand for one hard-coded enumeration value record. -/
def valY (n c : String) : YVal :=
  .map [("name", .str n), ("caption", .str c)]

/-- The hard-coded `entities` table of `main` (lines 129–247); none of
the records carries a `generalization` key. -/
def dmEntities : List (String × List YVal) :=
  [ ("ProductValidation",
      [ attrY "ProductID" "String" "Unique product identifier",
        attrY "ProductName" "String" "Product description",
        attrY "BatchNumber" "String" "Production batch number",
        attrY "ValidationDate" "DateTime" "Validation start date",
        attrYE "Status" "ValidationStatus" "Current validation status",
        attrYE "Priority" "Priority" "Validation priority level",
        attrY "WorkflowOutcome" "Boolean" "TRUE/FALSE workflow result",
        attrY "CompletionDate" "DateTime" "Validation completion date",
        attrY "RejectionReason" "String" "Reason for rejection if failed",
        attrY "CreatedBy" "String" "User who initiated validation" ]),
    ("ImageAcquisition",
      [ attrY "AcquisitionID" "String" "Unique acquisition identifier",
        attrY "ImagePath" "String" "Path to stored image file",
        attrY "AcquisitionDate" "DateTime" "When image was captured",
        attrY "TechnicianID" "String" "Technician performing acquisition",
        attrYE "ImageQuality" "ImageQuality" "Quality assessment result",
        attrY "Resolution" "String" "Image resolution specification",
        attrY "ColorDepth" "Integer" "Color depth in bits",
        attrY "FileSize" "Decimal" "Image file size in MB",
        attrY "CaptureSettings" "String" "Camera/equipment settings used" ]),
    ("ImageQualityValidation",
      [ attrY "ValidationID" "String" "Unique validation identifier",
        attrY "QualityScore" "Decimal" "Numerical quality score",
        attrY "QualityThreshold" "Decimal" "Minimum acceptable quality",
        attrY "ValidationResult" "Boolean" "Pass/fail validation result",
        attrY "ValidatedBy" "String" "User performing validation",
        attrY "ValidationDate" "DateTime" "When validation was performed",
        attrY "QualityMetrics" "String" "Detailed quality measurements",
        attrY "Comments" "String" "Additional validation comments" ]),
    ("DetailedImageAcquisition",
      [ attrY "DetailedID" "String" "Unique detailed acquisition ID",
        attrY "EnhancedImagePath" "String" "Path to enhanced image",
        attrY "ProcessingDate" "DateTime" "When detailed processing occurred",
        attrY "TechnicianID" "String" "Technician performing detailed work",
        attrYE "EnhancementType" "EnhancementType" "Type of enhancement applied",
        attrY "ProcessingDuration" "Integer" "Processing time in minutes",
        attrY "SpecializedEquipment" "String" "Equipment used for enhancement",
        attrY "QualityImprovement" "Decimal" "Quality improvement percentage" ]),
    ("ImageAnalysis",
      [ attrY "AnalysisID" "String" "Unique analysis identifier",
        attrY "AnalysisDate" "DateTime" "When analysis was performed",
        attrY "ProcessedBy" "String" "User performing analysis",
        attrYE "AnalysisType" "AnalysisType" "Type of analysis performed",
        attrY "AnalysisResults" "String" "Detailed analysis findings",
        attrY "ConfidenceLevel" "Decimal" "Analysis confidence percentage",
        attrY "ProcessingAlgorithm" "String" "Algorithm used for analysis",
        attrY "AnalysisDuration" "Integer" "Analysis time in minutes" ]),
    ("KPIExtraction",
      [ attrY "ExtractionID" "String" "Unique extraction identifier",
        attrY "ExtractedBy" "String" "User performing extraction",
        attrY "ExtractionDate" "DateTime" "When KPIs were extracted",
        attrY "KPIValues" "String" "JSON formatted KPI values",
        attrYE "ExtractionMethod" "ExtractionMethod" "Method used for extraction",
        attrY "DataAccuracy" "Decimal" "Extraction accuracy percentage",
        attrYE "ValidationStatus" "ValidationStatus" "KPI validation status" ]),
    ("ValidationResult",
      [ attrY "ResultID" "String" "Unique result identifier",
        attrY "FinalOutcome" "Boolean" "Final TRUE/FALSE outcome",
        attrY "ResultDate" "DateTime" "When result was determined",
        attrY "ApprovedBy" "String" "User approving final result",
        attrYE "ApprovalLevel" "ApprovalLevel" "Level of approval required",
        attrY "ResultSummary" "String" "Summary of validation findings",
        attrY "RecommendedActions" "String" "Recommended follow-up actions" ]),
    ("ValidationReport",
      [ attrY "ReportID" "String" "Unique report identifier",
        attrY "GeneratedDate" "DateTime" "Report generation date",
        attrY "GeneratedBy" "String" "User generating report",
        attrYE "ReportFormat" "ReportFormat" "Report output format",
        attrY "ReportContent" "String" "Complete report content",
        attrY "DistributionList" "String" "Report distribution recipients",
        attrY "DigitalSignature" "String" "Digital signature for authenticity" ]),
    ("WorkflowAuditTrail",
      [ attrY "AuditID" "String" "Unique audit entry identifier",
        attrY "EventTimestamp" "DateTime" "When event occurred",
        attrY "PerformedBy" "String" "User performing action",
        attrYE "ActionType" "AuditActionType" "Type of action performed",
        attrY "EntityAffected" "String" "Entity that was modified",
        attrY "OldValue" "String" "Previous value before change",
        attrY "NewValue" "String" "New value after change",
        attrY "ChangeReason" "String" "Reason for the change" ]) ]

/-- The hard-coded `enumerations` table of `main` (lines 264–361). -/
def dmEnumerations : List (String × List YVal) :=
  [ ("ValidationStatus",
      [ valY "Pending" "Pending", valY "InProgress" "In Progress",
        valY "Approved" "Approved", valY "Rejected" "Rejected",
        valY "OnHold" "On Hold", valY "Completed" "Completed" ]),
    ("Priority",
      [ valY "Low" "Low", valY "Medium" "Medium", valY "High" "High",
        valY "Critical" "Critical" ]),
    ("ImageQuality",
      [ valY "Poor" "Poor", valY "Fair" "Fair", valY "Good" "Good",
        valY "Excellent" "Excellent", valY "Outstanding" "Outstanding" ]),
    ("WorkflowStage",
      [ valY "ImageAcquisition" "Image Acquisition",
        valY "QualityValidation" "Quality Validation",
        valY "DetailedAcquisition" "Detailed Acquisition",
        valY "Analysis" "Analysis",
        valY "KPIExtraction" "KPI Extraction",
        valY "LABValidation" "LAB Validation",
        valY "ReportGeneration" "Report Generation" ]),
    ("ApprovalLevel",
      [ valY "Technician" "Technician", valY "Supervisor" "Supervisor",
        valY "Manager" "Manager", valY "Director" "Director" ]),
    ("EnhancementType",
      [ valY "ColorCorrection" "Color Correction",
        valY "NoiseReduction" "Noise Reduction",
        valY "SharpnessEnhancement" "Sharpness Enhancement",
        valY "ContrastAdjustment" "Contrast Adjustment" ]),
    ("AnalysisType",
      [ valY "Dimensional" "Dimensional Analysis",
        valY "ColorAnalysis" "Color Analysis",
        valY "TextureAnalysis" "Texture Analysis",
        valY "DefectDetection" "Defect Detection" ]),
    ("ExtractionMethod",
      [ valY "Automated" "Automated", valY "SemiAutomated" "Semi-Automated",
        valY "Manual" "Manual" ]),
    ("ReportFormat",
      [ valY "PDF" "PDF", valY "Excel" "Excel", valY "Word" "Word",
        valY "HTML" "HTML" ]),
    ("AuditActionType",
      [ valY "Created" "Created", valY "Modified" "Modified",
        valY "Deleted" "Deleted", valY "Approved" "Approved",
        valY "Rejected" "Rejected" ]) ]

/-- The `(path, content)` pairs `generate-domain-model.py::main` writes
under the `--output` directory (lines 249–261 and 363–371).  The
loaded configuration `config` is an argument only to make the source's
behaviour explicit: `main` never consults it when generating. -/
def dmMainFiles (out : String) (config : YVal) : Except String (List (String × String)) := do
  let _ := config
  let entityFiles ← dmEntities.mapM (fun e => do
    let xml ← generate_entity_xml e.1 e.2 none
    pure (out ++ "/domain-model/" ++ e.1 ++ ".xml", xml))
  let enumFiles ← dmEnumerations.mapM (fun e => do
    let xml ← dm_generate_enumeration_xml e.1 e.2
    pure (out ++ "/enumerations/" ++ e.1 ++ ".xml", xml))
  pure (entityFiles ++ enumFiles)

/-! ## 5. File system model, config loader, tool entry points -/

/-- The file system a tool run sees: directory paths and regular
files with their text contents.  Paths are plain `/`-joined strings,
as the scripts build them. -/
structure FS where
  dirs : List String
  files : List (String × String)
  deriving Repr, Inhabited

namespace FS

/-- A regular file exists at `p`. -/
def fileExists (fs : FS) (p : String) : Bool :=
  (fs.files.map Prod.fst).contains p

/-- A directory exists at `p`. -/
def dirExists (fs : FS) (p : String) : Bool :=
  fs.dirs.contains p

/-- `pathlib.Path.exists()`: file or directory. -/
def pathExists (fs : FS) (p : String) : Bool :=
  fs.fileExists p || fs.dirExists p

/-- Read a regular file (`open(p).read()`); `none` when there is no
regular file at `p` (opening a directory raises, which callers catch). -/
def read? (fs : FS) (p : String) : Option String :=
  (fs.files.find? (fun f => f.1 = p)).map Prod.snd

/-- Drop a prefix from a character list, or fail. -/
def dropPrefixL : List Char → List Char → Option (List Char)
  | [], l => some l
  | _, [] => none
  | a :: as_, b :: bs => if a = b then dropPrefixL as_ bs else none

/-- `Path(dir).glob("*.xml")`: names of the `.xml` files directly
inside `dir`, in file-table order. -/
def globXml (fs : FS) (dir : String) : List String :=
  (fs.files.map Prod.fst).filterMap (fun p =>
    match dropPrefixL (dir.data ++ ['/']) p.data with
    | some rest =>
      if ['.', 'x', 'm', 'l'].isSuffixOf rest && !rest.contains '/' then
        some (String.mk rest)
      else none
    | none => none)

end FS

/-- ASCII lower-casing (Python `str.lower()` on the ASCII content the
validator scans). -/
def strLower (s : String) : String :=
  .mk (s.data.map (fun c =>
    if 65 ≤ c.toNat && c.toNat ≤ 90 then Char.ofNat (c.toNat + 32) else c))

/-- Final path component (`Path(p).name`). -/
def baseName (p : String) : String :=
  .mk (p.data.foldl (fun acc c => if c = '/' then [] else acc ++ [c]) [])

/-- Substring test on character lists. -/
def subList (needle : List Char) : List Char → Bool
  | [] => needle.isEmpty
  | c :: cs => needle.isPrefixOf (c :: cs) || subList needle cs

/-- Python `needle in haystack` for strings. -/
def strContains (haystack needle : String) : Bool :=
  subList needle.data haystack.data

/-- The `alternative_paths` list of `load_config` in the ET-based
generators (generate-enumerations.py lines 23–27; the security
generator substitutes `security-config.yaml` for the middle entry,
which none of the claims touch). -/
def alternativePaths : List String :=
  ["config/lab-workflow-config.yaml", "config/domain-model-config.yaml",
   "../config/lab-workflow-config.yaml"]

/-- `load_config(config_path)` of the ET-based generators
(generate-enumerations.py lines 14–41).  `parse` stands for
`yaml.safe_load` on file contents; `defaultCfg` for the generator's
`get_default_*_config()`.  The whole body sits in one `try/except
Exception`, so *any* parse failure — including one on an alternative
path — returns `None`; only a missing path falls through to the next
candidate. -/
def load_config {α : Type} (fs : FS) (parse : String → Except String α)
    (defaultCfg : α) (configPath : String) : Option α :=
  if fs.pathExists configPath then
    (fs.read? configPath).bind (fun content => (parse content).toOption)
  else
    match alternativePaths.find? (fun p => fs.pathExists p) with
    | some alt => (fs.read? alt).bind (fun content => (parse content).toOption)
    | none => some defaultCfg

/-- Python `key in container` (`in` on dicts, lists and strings;
`TypeError` otherwise). -/
def pyContains (v : YVal) (key : String) : Except String Bool :=
  match v with
  | .map kvs => .ok (YVal.hasKey kvs key)
  | .list xs => .ok (xs.any (fun x => match x with | .str s => s = key | _ => false))
  | .str s => .ok (strContains s key)
  | _ => .error "TypeError: argument is not iterable"

/-- One default enumeration value record of
`get_default_enumerations_config`. -/
def dvalY (n c d : String) : YVal :=
  .map [("name", .str n), ("caption", .str c), ("description", .str d)]

/-- One default enumeration record. -/
def denumY (n d : String) (vs : List YVal) : YVal :=
  .map [("name", .str n), ("description", .str d), ("values", .list vs)]

/-- `get_default_enumerations_config()` (generate-enumerations.py
lines 43–148). -/
def defaultEnumerationsConfig : YVal :=
  .map [("enumerations", .list
    [ denumY "WorkflowStage" "Stages in the LAB product validation workflow"
        [ dvalY "ImageAcquisition" "Image Acquisition" "Initial image capture phase",
          dvalY "QualityValidation" "Quality Validation" "Critical quality assessment phase",
          dvalY "DetailedAcquisition" "Detailed Acquisition" "Enhanced image processing phase",
          dvalY "Analysis" "Analysis" "Automated image analysis phase",
          dvalY "KPIExtraction" "KPI Extraction" "Performance indicators extraction phase",
          dvalY "LABValidation" "LAB Validation" "Final human validation phase",
          dvalY "ReportGeneration" "Report Generation" "Comprehensive report creation phase",
          dvalY "Completed" "Completed" "Workflow successfully completed" ],
      denumY "ProcessingStatus" "Status of image processing and analysis tasks"
        [ dvalY "Pending" "Pending" "Task is waiting to be processed",
          dvalY "InProgress" "In Progress" "Task is currently being processed",
          dvalY "Completed" "Completed" "Task has been successfully completed",
          dvalY "Failed" "Failed" "Task processing has failed",
          dvalY "RequiresReview" "Requires Review" "Task needs manual review",
          dvalY "Cancelled" "Cancelled" "Task has been cancelled" ],
      denumY "ValidationOutcome" "Final validation decision outcomes"
        [ dvalY "Approved" "Approved" "Validation passed - product approved",
          dvalY "Rejected" "Rejected" "Validation failed - product rejected",
          dvalY "Pending" "Pending" "Validation decision is pending",
          dvalY "RequiresRework" "Requires Rework" "Product needs additional work",
          dvalY "ConditionalApproval" "Conditional Approval" "Approved with conditions",
          dvalY "Escalated" "Escalated" "Decision escalated to higher authority" ],
      denumY "ReportFormat" "Available formats for validation reports"
        [ dvalY "PDF" "PDF" "Portable Document Format",
          dvalY "HTML" "HTML" "Web page format",
          dvalY "JSON" "JSON" "JavaScript Object Notation",
          dvalY "XML" "XML" "Extensible Markup Language",
          dvalY "Excel" "Excel" "Microsoft Excel spreadsheet",
          dvalY "CSV" "CSV" "Comma-separated values" ],
      denumY "QualityLevel" "Quality assessment levels for images and processes"
        [ dvalY "Poor" "Poor" "Quality is below acceptable standards",
          dvalY "Fair" "Fair" "Quality meets minimum standards",
          dvalY "Good" "Good" "Quality is good and acceptable",
          dvalY "VeryGood" "Very Good" "Quality exceeds standard requirements",
          dvalY "Excellent" "Excellent" "Quality is exceptional",
          dvalY "Outstanding" "Outstanding" "Quality is the highest possible level" ],
      denumY "TaskPriority" "Priority levels for workflow tasks"
        [ dvalY "Critical" "Critical" "Highest priority - immediate attention required",
          dvalY "High" "High" "High priority - urgent processing needed",
          dvalY "Medium" "Medium" "Medium priority - standard processing",
          dvalY "Low" "Low" "Low priority - can be processed when time allows",
          dvalY "Deferred" "Deferred" "Processing has been postponed" ],
      denumY "UserRole" "User roles in the LAB validation system"
        [ dvalY "LABAdmin" "LAB Administrator" "Full system administration rights",
          dvalY "LABTechnician" "LAB Technician" "Task execution and data entry",
          dvalY "LABViewer" "LAB Viewer" "Read-only access to public information",
          dvalY "LABSupervisor" "LAB Supervisor" "Supervisory oversight of technicians",
          dvalY "SystemAdmin" "System Administrator" "Technical system administration" ],
      denumY "AuditActionType" "Types of actions recorded in the audit trail"
        [ dvalY "Create" "Create" "Entity was created",
          dvalY "Update" "Update" "Entity was modified",
          dvalY "Delete" "Delete" "Entity was deleted",
          dvalY "View" "View" "Entity was accessed for viewing",
          dvalY "Export" "Export" "Data was exported",
          dvalY "Import" "Import" "Data was imported",
          dvalY "Approve" "Approve" "Approval action was taken",
          dvalY "Reject" "Reject" "Rejection action was taken",
          dvalY "Assign" "Assign" "Task or role was assigned",
          dvalY "Complete" "Complete" "Task was completed" ] ])]

/-- One default microflow parameter record. -/
def dparamY (n t : String) : YVal :=
  .map [("name", .str n), ("type", .str t)]

/-- One default microflow record. -/
def dmfY (n t d : String) (ps : List YVal) (ret : String) (roles : List String) : YVal :=
  .map [("name", .str n), ("type", .str t), ("description", .str d),
        ("parameters", .list ps), ("return_type", .str ret),
        ("security_roles", .list (roles.map .str))]

/-- `get_default_microflows_config()` (generate-microflows.py
lines 43–160). -/
def defaultMicroflowsConfig : YVal :=
  .map [("microflows", .list
    [ dmfY "ACT_CreateTask" "action"
        "Creates new task with proper assignment and initial status"
        [ dparamY "TaskTitle" "String",
          dparamY "AssignedUser" "Administration.Account",
          dparamY "WorkflowContext" "ProductValidation" ]
        "System.WorkflowUserTask" ["LABAdmin", "LABTechnician"],
      dmfY "ACT_AssignTask" "action"
        "Assigns tasks to users based on role and workload"
        [ dparamY "Task" "System.WorkflowUserTask",
          dparamY "NewAssignee" "Administration.Account" ]
        "Boolean" ["LABAdmin"],
      dmfY "ACT_CompleteTask" "action"
        "Marks task as completed, triggers workflow progression"
        [ dparamY "Task" "System.WorkflowUserTask",
          dparamY "CompletionData" "String" ]
        "Boolean" ["LABAdmin", "LABTechnician"],
      dmfY "SUB_CheckUserPermissions" "submicroflow"
        "Validates user access rights for specific actions"
        [ dparamY "User" "Administration.Account",
          dparamY "RequiredRole" "String",
          dparamY "EntityToAccess" "String" ]
        "Boolean" ["LABAdmin", "LABTechnician", "LABViewer"],
      dmfY "ACT_ProcessImageQuality" "action"
        "Validates image quality and determines approval status"
        [ dparamY "ImageAcquisition" "ImageAcquisition",
          dparamY "QualityThreshold" "Decimal" ]
        "Boolean" ["LABAdmin", "LABTechnician"],
      dmfY "DS_GetMyTasks" "datasource"
        "Returns tasks filtered by current user with XPath constraints"
        [ dparamY "CurrentUser" "Administration.Account" ]
        "List of System.WorkflowUserTask" ["LABAdmin", "LABTechnician"],
      dmfY "ACT_InitiateWorkflow" "action"
        "Initiates new LAB validation workflow instance"
        [ dparamY "ProductID" "String",
          dparamY "InitiatedBy" "Administration.Account" ]
        "ProductValidation" ["LABAdmin", "LABTechnician"],
      dmfY "ACT_GenerateValidationReport" "action"
        "Generates comprehensive validation report"
        [ dparamY "ProductValidation" "ProductValidation" ]
        "ValidationReport" ["LABAdmin", "LABTechnician", "LABViewer"],
      dmfY "ACT_UpdateAuditTrail" "action"
        "Records action in workflow audit trail"
        [ dparamY "Action" "String",
          dparamY "EntityChanged" "String",
          dparamY "OldValue" "String",
          dparamY "NewValue" "String" ]
        "WorkflowAuditTrail" ["LABAdmin", "LABTechnician"],
      dmfY "ACT_ValidateWorkflowOutcome" "action"
        "Critical TRUE/FALSE decision point for workflow progression"
        [ dparamY "ProductValidation" "ProductValidation",
          dparamY "ValidationCriteria" "String" ]
        "Boolean" ["LABAdmin"] ])]

/-! ### `create_enumerations_summary` (generate-enumerations.py 198–286)

Needed because `main` builds the summary after the generation loop:
a record that is not a dict with a `name` key makes the summary raise,
which escapes `main` and turns into exit status 1 via the top-level
handler — unlike per-record generation failures, which are caught. -/

/-- Static usage-examples tail of the summary (lines 230–284). -/
def enumSummaryTail : String :=
  "## Usage Examples\n\n### In Domain Model Attributes\n\n```yaml\n"
  ++ "attributes:\n  - name: \"ValidationStage\"\n    type: \"Enumeration\"\n"
  ++ "    enumeration: \"WorkflowStage\"\n  - name: \"Result\"\n"
  ++ "    type: \"Enumeration\"\n    enumeration: \"ValidationOutcome\"\n```\n\n"
  ++ "### In Microflows\n\n```javascript\n// Check workflow stage\n"
  ++ "if ($ValidationStage = WorkflowStage.QualityValidation) \x7b\n"
  ++ "    // Handle quality validation logic\n\x7d\n\n"
  ++ "// Set validation outcome\n$ValidationResult/Result := ValidationOutcome.Approved;\n```\n\n"
  ++ "### In Pages (Dropdown Components)\n\n```yaml\ncomponents:\n"
  ++ "  - type: \"DropDown\"\n    field: \"Result\"\n"
  ++ "    enumeration: \"ValidationOutcome\"\n    title: \"Validation Decision\"\n```\n\n"
  ++ "### XPath Constraints\n\n```xpath\n// Show only approved validations\n"
  ++ "[Result = \x27Approved\x27]\n\n// Filter by workflow stage\n"
  ++ "[ValidationStage = \x27LABValidation\x27]\n```\n\n"
  ++ "## Integration Notes\n\n"
  ++ "- All enumerations are automatically available in Studio Pro after import\n"
  ++ "- Use the enumeration names exactly as defined (case-sensitive)\n"
  ++ "- Enumeration values can be used in XPath expressions and microflows\n"
  ++ "- Dropdown widgets automatically populate with enumeration values\n"
  ++ "- Consider adding new values to existing enumerations rather than creating new ones\n\n"

/-- Per-value table row of the summary (lines 219–223). -/
def enumSummaryValueRow (value : YVal) : Except String String := do
  let nm ← value.getAttr "name" (.str "Unknown")
  let caption ← value.getAttr "caption" nm
  let desc ← value.getAttr "description" (.str "No description")
  pure ("| `" ++ YVal.strPy nm ++ "` | " ++ YVal.strPy caption ++ " | "
    ++ YVal.strPy desc ++ " |\n")

/-- Per-enumeration block of the summary (lines 210–227). -/
def enumSummaryBlock (enum : YVal) : Except String String := do
  let nm ← enum.getItem "name"
  let desc ← enum.getAttr "description" (.str "No description")
  let head := "### 📊 " ++ YVal.strPy nm ++ "\n\n**Description:** "
    ++ YVal.strPy desc ++ "\n\n"
  let valuesPart ←
    match enum with
    | .map kvs =>
      if ((YVal.lookup kvs "values").map YVal.truthy).getD false then do
        let vs ← pyIter ((YVal.lookup kvs "values").getD .null)
        let rows ← vs.mapM enumSummaryValueRow
        pure ("**Values:**\n\n| Name | Caption | Description |\n|------|---------|-------------|\n"
          ++ String.join rows ++ "\n")
      else pure ""
    | _ => pure ""
  pure (head ++ valuesPart ++ "---\n\n")

/-- `create_enumerations_summary(enums_config)` (lines 198–286);
`now` is the `datetime.now().strftime("%Y-%m-%d %H:%M:%S")` reading. -/
def create_enumerations_summary (now : String) (enums : YVal) : Except String String := do
  let blocks ← (← pyIter enums).mapM enumSummaryBlock
  pure ("# LAB Workflow Enumerations Summary\n\nGenerated on: " ++ now
    ++ "\n\n## Enumerations Overview\n\n"
    ++ "This document lists all enumerations used in the LAB Product Validation Workflow system.\n\n"
    ++ String.join blocks ++ enumSummaryTail)

/-! ### Generator entry points and exit codes -/

/-- Whether one enumeration record makes it to a file in the
generation loop of `generate-enumerations.py::main` (lines 328–352):
the per-record `try` catches the `.get` on a non-dict, a `None` from
`generate_enumeration_xml`, and a serialization `TypeError` from
`format_xml_output`. -/
def enumRecordOk (r : YVal) : Bool :=
  match r.getAttr "name" (.str "Unknown") with
  | .error _ => false
  | .ok _ =>
    match generate_enumeration_xml r with
    | .error _ => false
    | .ok x => (format_xml_output x).toOption.isSome

/-- Number of enumeration files generated from a record list. -/
def enumGenerated (records : List YVal) : Nat :=
  (records.filter enumRecordOk).length

/-- Exit status of `generate-enumerations.py` (main lines 288–367 plus
the `__main__` handler lines 369–380): `1` when the config fails to
load or when an uncaught exception escapes `main` (iteration or
summary generation), `0` otherwise — *regardless of how many records
failed to generate*. -/
def enumMainExit (fs : FS) (parse : String → Except String YVal)
    (cfgPath : String) (now : String) : Nat :=
  match load_config fs parse defaultEnumerationsConfig cfgPath with
  | none => 1
  | some config =>
    match pyContains config "enumerations" with
    | .error _ => 1
    | .ok false => 0
    | .ok true =>
      match config.getItem "enumerations" with
      | .error _ => 1
      | .ok ev =>
        if ¬ ev.truthy then 0
        else
          match pyIter ev with
          | .error _ => 1
          | .ok _ =>
            match create_enumerations_summary now ev with
            | .error _ => 1
            | .ok _ => 0

/-- Whether one microflow record makes it to a file in the generation
loop of `generate-microflows.py::main` (lines 410–434). -/
def mfRecordOk (now : String) (r : YVal) : Bool :=
  match r.getAttr "name" (.str "Unknown") with
  | .error _ => false
  | .ok _ =>
    match generate_microflow_xml now r with
    | .error _ => false
    | .ok x => (format_xml_output x).toOption.isSome

/-- Number of microflow files generated from a record list. -/
def mfGenerated (now : String) (records : List YVal) : Nat :=
  (records.filter (mfRecordOk now)).length

/-- Whether the per-record `except` handler of
`generate-microflows.py::main` itself raises and so escapes `main`
(line 431): on a non-dict record the body's first statement
`microflow_config.get('name', 'Unknown')` (line 412) raises
`AttributeError`, and the handler's f-string repeats the same `.get`
call, raising again.  On a dict record the handler's `.get` succeeds,
so every failure of the body is absorbed. -/
def mfRecordEscapes (r : YVal) : Bool :=
  match r.getAttr "name" (.str "unknown") with
  | .error _ => true
  | .ok _ => false

/-- Exit status of `generate-microflows.py` (main lines 370–442 plus
the `__main__` handler): `1` when the config fails to load, when the
`microflows` entry cannot be read/iterated, or when a record makes the
per-record `except` handler itself raise (a non-dict record, whose
`.get` fails again inside the handler's f-string and escapes to the
`__main__` handler); failures of dict records are caught and the run
still exits `0`. -/
def microMainExit (fs : FS) (parse : String → Except String YVal)
    (cfgPath : String) : Nat :=
  match load_config fs parse defaultMicroflowsConfig cfgPath with
  | none => 1
  | some config =>
    match pyContains config "microflows" with
    | .error _ => 1
    | .ok false => 0
    | .ok true =>
      match config.getItem "microflows" with
      | .error _ => 1
      | .ok ev =>
        if ¬ ev.truthy then 0
        else
          match pyIter ev with
          | .error _ => 1
          | .ok rs => if rs.any mfRecordEscapes then 1 else 0

/-! ### `validate-lab-project.py` -/

/-- Stand-in for the `str(e)` detail of an `ET.ParseError` that
`validate_xml_syntax` reports (position information; no claim inspects
it). -/
def parseErrorText : String := "XML parse error"

/-- `deprecated_entities` (validate-lab-project.py lines 25–30). -/
def deprecatedEntities : List String :=
  ["System.WorkflowEndedUserTask", "WorkflowCommons.UserTaskView",
   "WorkflowCommons.WorkflowView", "WorkflowCommons.MyInitiatedWorkflowView"]

/-- `check_entity_references` (lines 22–45) on a file content. -/
def check_entity_references (content : String) : List String :=
  deprecatedEntities.filterMap (fun d =>
    if strContains content d then some ("Found deprecated entity reference: " ++ d)
    else none)

/-- `check_xpath_syntax` (lines 47–77) on a file content.  Note the
first test looks for `"$currentUser"` (with an upper-case `U`) inside
the *lower-cased* content, so it can never fire; it is embedded as
written. -/
def check_xpath_syntax (content : String) : List String :=
  (if strContains (strLower content) "$currentUser" then
    ["Found \x27$currentUser\x27 - should be \x27[%CurrentUser%]\x27 in 10.18.1"]
   else [])
  ++ (if strContains (strLower content) "%currentuser%"
        && !strContains content "[%CurrentUser%]" then
    ["Found incorrect CurrentUser syntax - use \x27[%CurrentUser%]\x27"]
   else [])
  ++ (["WorkflowView", "UserTaskView", "MyInitiatedWorkflowView"].filterMap (fun pat =>
    if strContains (strLower content) (strLower pat) then
      some ("Found View Entity reference in XPath: " ++ pat)
    else none))

/-- `required_roles` (line 83). -/
def requiredRoles : List String := ["LABAdmin", "LABTechnician", "LABViewer"]

/-- Issues `validate_security_roles` collects for one role. -/
def securityRoleIssues (fs : FS) (securityDir role : String) : List String :=
  let roleFile := securityDir ++ "/" ++ role ++ ".xml"
  if ¬ fs.fileExists roleFile then
    ["Missing required security role: " ++ role]
  else
    let content := (fs.read? roleFile).getD ""
    (if ¬ validate_xml_syntax content then
       ["Invalid XML in " ++ role ++ ".xml: " ++ parseErrorText] else [])
    ++ (check_entity_references content).map (fun e => role ++ ".xml: " ++ e)
    ++ ( check_xpath_syntax content).map (fun e => role ++ ".xml: " ++ e)

/-- `validate_security_roles(security_dir)` (lines 79–109). -/
def validate_security_roles (fs : FS) (securityDir : String) : Bool × List String :=
  if ¬ fs.dirExists securityDir then (false, ["Security directory not found"])
  else
    let issues := (requiredRoles.map (securityRoleIssues fs securityDir)).flatten
    (issues.isEmpty, issues)

/-- `required_entities` (lines 123–133). -/
def requiredEntities : List String :=
  ["ProductValidation", "ImageAcquisition", "ImageQualityValidation",
   "DetailedImageAcquisition", "ImageAnalysis", "KPIExtraction",
   "ValidationResult", "ValidationReport", "WorkflowAuditTrail"]

/-- `required_enums` (lines 147–153). -/
def requiredEnums : List String :=
  ["ValidationStatus", "Priority", "ImageQuality", "WorkflowStage", "ApprovalLevel"]

/-- Issues for one required artifact checked only for existence and
XML syntax (entities and enumerations, lines 136–144 and 156–164). -/
def xmlArtifactIssues (fs : FS) (dir name missingMsg : String) : List String :=
  let file := dir ++ "/" ++ name ++ ".xml"
  if ¬ fs.fileExists file then [missingMsg ++ name]
  else
    let content := (fs.read? file).getD ""
    if ¬ validate_xml_syntax content then
      ["Invalid XML in " ++ name ++ ".xml: " ++ parseErrorText]
    else []

/-- `validate_domain_model(domain_dir, enum_dir)` (lines 111–166). -/
def validate_domain_model (fs : FS) (domainDir enumDir : String) : Bool × List String :=
  if ¬ fs.dirExists domainDir then (false, ["Domain model directory not found"])
  else if ¬ fs.dirExists enumDir then (false, ["Enumerations directory not found"])
  else
    let issues :=
      (requiredEntities.map (fun e =>
        xmlArtifactIssues fs domainDir e "Missing required entity: ")).flatten
      ++ (requiredEnums.map (fun e =>
        xmlArtifactIssues fs enumDir e "Missing required enumeration: ")).flatten
    (issues.isEmpty, issues)

/-- `core_microflows` (lines 177–183). -/
def coreMicroflows : List String :=
  ["ACT_CreateTask", "ACT_CompleteTask", "ACT_ProcessImageQuality",
   "SUB_CheckUserPermissions", "DS_GetMyTasks"]

/-- Issues `validate_microflows` collects for one core microflow. -/
def microflowIssues (fs : FS) (microflowsDir name : String) : List String :=
  let file := microflowsDir ++ "/" ++ name ++ ".xml"
  if ¬ fs.fileExists file then ["Missing core microflow: " ++ name]
  else
    let content := (fs.read? file).getD ""
    (if ¬ validate_xml_syntax content then
       ["Invalid XML in " ++ name ++ ".xml: " ++ parseErrorText] else [])
    ++ (check_entity_references content).map (fun e => name ++ ".xml: " ++ e)

/-- `validate_microflows(microflows_dir)` (lines 168–201). -/
def validate_microflows (fs : FS) (microflowsDir : String) : Bool × List String :=
  if ¬ fs.dirExists microflowsDir then (false, ["Microflows directory not found"])
  else
    let issues := (coreMicroflows.map (microflowIssues fs microflowsDir)).flatten
    (issues.isEmpty, issues)

/-- `validate_project_structure(base_dir)` with `base_dir = Path(".")`
(lines 203–226); note the directory list is rooted at the *current
directory*, not at `--output`. -/
def validate_project_structure (fs : FS) : Bool × List String :=
  let requiredDirs := ["output/domain-model", "output/enumerations",
    "output/microflows", "output/security", "config"]
  let issues :=
    (requiredDirs.filterMap (fun d =>
      if ¬ fs.pathExists d then some ("Missing required directory: " ++ d) else none))
    ++ (if ¬ fs.pathExists "config/lab-workflow-config.yaml" then
         ["Missing configuration file: config/lab-workflow-config.yaml"] else [])
  (issues.isEmpty, issues)

/-- Compatibility issues of one file (lines 240–264). -/
def compatFileIssues (nm content : String) : List String :=
  (["WorkflowEndedUserTask", "View Entities", "view entity", "viewEntity"].filterMap
    (fun feature =>
      if strContains (strLower content) (strLower feature) then
        some (nm ++ ": Contains Mendix 11+ feature: " ++ feature)
      else none))
  ++ (if strContains content "http://www.mendix.com/metamodel/"
        && (strContains content "/8.0.0" || strContains content "/9.0.0") then
      [nm ++ ": Uses newer XML schema version"] else [])

/-- `check_mendix_compatibility(base_dir)` (lines 228–266). -/
def check_mendix_compatibility (fs : FS) : Bool × List String :=
  let issues :=
    ((["domain-model", "microflows", "security", "pages", "workflows"].map (fun d =>
      let dir := "output/" ++ d
      if fs.dirExists dir then
        (fs.globXml dir).map (fun nm =>
          compatFileIssues nm ((fs.read? (dir ++ "/" ++ nm)).getD ""))
      else [])).flatten).flatten
  (issues.isEmpty, issues)

/-- `validate-lab-project.py::main` (lines 268–421): exit status and
the issues reported across all categories.  When `--output` does not
exist the script exits 1 right after the structure check. -/
def validatorMain (fs : FS) (out : String) (comprehensive : Bool) : Nat × List String :=
  let structureRes := validate_project_structure fs
  if ¬ fs.pathExists out then (1, structureRes.2)
  else
    let domainRes := validate_domain_model fs (out ++ "/domain-model") (out ++ "/enumerations")
    let microRes := validate_microflows fs (out ++ "/microflows")
    let secRes := validate_security_roles fs (out ++ "/security")
    let compatRes := if comprehensive then check_mendix_compatibility fs else (true, [])
    let allPassed := structureRes.1 && domainRes.1 && microRes.1 && secRes.1 && compatRes.1
    ((if allPassed then 0 else 1),
      structureRes.2 ++ domainRes.2 ++ microRes.2 ++ secRes.2 ++ compatRes.2)

/-! ### `generate-mpk-package.py` -/

/-- The artifact-kind subdirectories the packager looks at, in the
order of both the counting loop (line 291) and `create_mpk_package`. -/
def mpkSubdirs : List String :=
  ["enumerations", "domain-model", "security", "microflows", "pages", "workflows"]

/-- The file-counting loop of `main` (lines 289–296): subdirectories
that do not exist contribute nothing. -/
def mpkCountFiles (fs : FS) (out : String) : Nat :=
  (mpkSubdirs.map (fun sub =>
    let p := out ++ "/" ++ sub
    if fs.pathExists p then (fs.globXml p).length else 0)).sum

/-- `docs_to_include` (lines 163–168). -/
def mpkDocs : List String :=
  ["output/security/SECURITY_SUMMARY.md", "output/enumerations/ENUMERATIONS_SUMMARY.md",
   "output/workflows/WORKFLOW_DIAGRAM.md", "output/PROJECT_SUMMARY.md"]

/-- Archive entry names produced by `create_mpk_package` (lines
87–182); XML files are always collected from the hard-coded `output/`
tree, and a missing subdirectory is skipped silently. -/
def create_mpk_entries (fs : FS) : List String :=
  ["manifest.json", "module.xml"]
  ++ ((mpkSubdirs.map (fun sub =>
      if fs.dirExists ("output/" ++ sub) then
        (fs.globXml ("output/" ++ sub)).map (fun nm => sub ++ "/" ++ nm)
      else [])).flatten)
  ++ (mpkDocs.filterMap (fun p =>
      if fs.fileExists p then some ("documentation/" ++ baseName p) else none))
  ++ ["documentation/INSTALLATION_GUIDE.md"]

/-- Exit status of `generate-mpk-package.py::main` (lines 266–331):
`1` when the output root is absent or no eligible XML file exists
across the artifact-kind subdirectories, else `0`. -/
def mpkMainExit (fs : FS) (out : String) : Nat :=
  if ¬ fs.pathExists out then 1
  else if mpkCountFiles fs out = 0 then 1
  else 0

/-! ## 6. Claim theorems -/

/-! ### Inspection helpers for parsed trees and ElementTree nodes -/

/-- Root tag test. -/
def XTree.tagIs : XTree → String → Bool
  | .elem t _ _, tg => t = tg
  | .text _, _ => false

/-- Attribute lookup on a parsed element. -/
def XTree.attrOf : XTree → String → Option String
  | .elem _ as_ _, k => (as_.find? (fun p => p.1 = k)).map Prod.snd
  | .text _, _ => none

mutual

/-- All descendant elements (including the node itself) with the
given tag, in document order. -/
def XTree.descTag (tag : String) : XTree → List XTree
  | .text _ => []
  | .elem t as_ cs =>
    (if t = tag then [XTree.elem t as_ cs] else []) ++ XTree.descTagList tag cs

def XTree.descTagList (tag : String) : List XTree → List XTree
  | [] => []
  | c :: cs => XTree.descTag tag c ++ XTree.descTagList tag cs

end

/-- Tag test for an ElementTree node. -/
def XNode.tagIs : XNode → String → Bool
  | .elem t _ _ _, tg => t = tg
  | .comment _, _ => false

/-- Attribute lookup on an ElementTree element. -/
def XNode.attrOf : XNode → String → Option YVal
  | .elem _ as_ _ _, k => (as_.find? (fun p => p.1 = k)).map Prod.snd
  | .comment _, _ => none

/-- The children of an ElementTree element. -/
def XNode.childrenOf : XNode → List XNode
  | .elem _ _ _ cs => cs
  | .comment _ => []

/-- `Except` success test. -/
def exceptIsOk {ε α : Type} : Except ε α → Bool
  | .ok _ => true
  | .error _ => false

/-! ### C1 — the end-to-end Widget scenario -/

/-- The `{name: "Count", type: "Integer"}` attribute record. -/
def widgetAttr : YVal := .map [("name", .str "Count"), ("type", .str "Integer")]

/-- A configuration whose `entities` list holds exactly the Widget
record of the claim. -/
def widgetConfig : YVal :=
  .map [("entities", .list
    [.map [("name", .str "Widget"), ("attributes", .list [widgetAttr])]])]

/-- The file paths `generate-domain-model.py::main` always writes
under `--output out`, hard-coded in the script. -/
def dmHardcodedPaths : List String :=
  (dmEntities.map (fun e => "out/domain-model/" ++ e.1 ++ ".xml"))
  ++ (dmEnumerations.map (fun e => "out/enumerations/" ++ e.1 ++ ".xml"))

/-- Build one entity document and parse it back. -/
def entityDocOf (nm : String) (attrs : List YVal) : Option XTree :=
  match generate_entity_xml nm attrs none with
  | .ok s => parseXml s
  | .error _ => none

/-- An attribute record the entity builder accepts without raising:
a dict providing the mandatory `name` and `type` keys, with a
hashable `type` value. -/
def attrRecordOk (a : YVal) : Bool :=
  match a with
  | .map kvs =>
    YVal.hasKey kvs "name" && YVal.hasKey kvs "type"
      && ((YVal.lookup kvs "type").map YVal.hashable).getD false
  | _ => false

/-- The file content `generate-microflows.py::main` writes for one
record (lines 419–423): the fixed header followed by
`format_xml_output(generate_microflow_xml(cfg))`. -/
def microflowFileContent (now : String) (cfg : YVal) : Except String String :=
  (generate_microflow_xml now cfg).bind (fun x =>
    (format_xml_output x).map (fun b => create_mendix_xml_header ++ b))

/-- File system for the C6 counterexample: the primary path is
missing; the first alternative exists but is unparsable; the second
alternative exists and parses. -/
def fsAltBadFirst : FS :=
  ⟨[], [("config/lab-workflow-config.yaml", "bad"),
        ("config/domain-model-config.yaml", "good")]⟩

/-- Parse model for C6: only the content `"good"` parses. -/
def parseAlt : String → Except String YVal :=
  fun c => if c = "good" then .ok (.str "v") else .error "not yaml"

/-- An enumeration record whose generation fails: the value record
carries a non-string `name`, so `format_xml_output` raises the
serialization `TypeError`, caught by the per-record handler. -/
def c5BadRecord : YVal :=
  .map [("name", .str "E"), ("values", .list [.map [("name", .int 5)]])]

/-- A configuration whose single enumeration record fails to generate. -/
def c5BadConfig : YVal := .map [("enumerations", .list [c5BadRecord])]

/-- File system for C5: the requested config path exists. -/
def c5Fs : FS := ⟨[], [("config.yaml", "cfg")]⟩

/-- Parse model for C5. -/
def c5Parse : String → Except String YVal :=
  fun c => if c = "cfg" then .ok c5BadConfig else .error "bad yaml"

/-- Add one directory entry to a file system. -/
def FS.addDir (fs : FS) (d : String) : FS := ⟨d :: fs.dirs, fs.files⟩

/-- Whether an ElementTree node has string attribute `k` equal to `v`. -/
def attrIsStr (n : XNode) (k v : String) : Bool :=
  match XNode.attrOf n k with
  | some (.str s) => s = v
  | _ => false

/-- The microflow document built from the empty record at a fixed
timestamp (used by the C9 witness). -/
def c9SampleDoc : XNode :=
  match generate_microflow_xml "2025-01-01 10:00:00" (.map []) with
  | .ok x => x
  | .error _ => .comment ""

/-- The four kinds of required artifacts the validator checks. -/
inductive ReqKind where
  | entity
  | enumKind
  | microflow
  | securityRole
  deriving DecidableEq, Repr

/-- The required-name list for a kind (the validator's hard-coded
tables). -/
def reqList : ReqKind → List String
  | .entity => requiredEntities
  | .enumKind => requiredEnums
  | .microflow => coreMicroflows
  | .securityRole => requiredRoles

/-- The directory a kind's artifacts live in, under `--output`. -/
def reqDir (out : String) : ReqKind → String
  | .entity => out ++ "/domain-model"
  | .enumKind => out ++ "/enumerations"
  | .microflow => out ++ "/microflows"
  | .securityRole => out ++ "/security"

/-- The issue message the validator prints for a missing artifact. -/
def missingMsg : ReqKind → String → String
  | .entity, x => "Missing required entity: " ++ x
  | .enumKind, x => "Missing required enumeration: " ++ x
  | .microflow, x => "Missing core microflow: " ++ x
  | .securityRole, x => "Missing required security role: " ++ x

/-- The checks the validator runs on a *present* artifact of a kind. -/
def fileClean (k : ReqKind) (content : String) : Bool :=
  validate_xml_syntax content
  && (match k with
      | .microflow => (check_entity_references content).isEmpty
      | .securityRole =>
        (check_entity_references content).isEmpty && ( check_xpath_syntax content).isEmpty
      | _ => true)

/-- Path of one required artifact. -/
def artifactPath (out : String) (k : ReqKind) (x : String) : String :=
  reqDir out k ++ "/" ++ x ++ ".xml"

/-- All four kinds. -/
def allKinds : List ReqKind := [.entity, .enumKind, .microflow, .securityRole]

/-- A generated tree that would fully pass the validator, except that
the single required artifact `(k, x)` is absent: the structure check
passes, the output root and the four artifact directories exist, every
required artifact other than `(k, x)` is present with clean content,
and `(k, x)`'s file does not exist. -/
def completeExcept (fs : FS) (out : String) (k : ReqKind) (x : String) : Bool :=
  (validate_project_structure fs).1
  && fs.pathExists out
  && allKinds.all (fun kd => fs.dirExists (reqDir out kd))
  && allKinds.all (fun kd => (reqList kd).all (fun nm =>
      if kd = k ∧ nm = x then !fs.fileExists (artifactPath out kd nm)
      else fs.fileExists (artifactPath out kd nm)
        && fileClean kd ((fs.read? (artifactPath out kd nm)).getD "")))

/-- A concrete output tree for the C7 witness: everything required is
present as minimal well-formed XML, except the `ProductValidation`
entity. -/
def c7Fs : FS :=
  ⟨["output", "output/domain-model", "output/enumerations", "output/microflows",
    "output/security", "config"],
   ("config/lab-workflow-config.yaml", "cfg")
     :: ((requiredEntities.filter (fun e => e ≠ "ProductValidation")).map
          (fun e => ("output/domain-model/" ++ e ++ ".xml", "<a/>")))
     ++ (requiredEnums.map (fun e => ("output/enumerations/" ++ e ++ ".xml", "<a/>")))
     ++ (coreMicroflows.map (fun m => ("output/microflows/" ++ m ++ ".xml", "<a/>")))
     ++ (requiredRoles.map (fun r => ("output/security/" ++ r ++ ".xml", "<a/>")))⟩

/-- A character that is inert both in XML character data and inside a
double-quoted attribute value. -/
def safeChar (c : Char) : Bool :=
  !(c = '&' || c = '<' || c = '>' || c = '"' || c = Char.ofNat 39)

/-- All characters of a string are XML-safe. -/
def safeStr (s : String) : Bool := s.data.all safeChar

/-- An attribute record all of whose free-text fields are XML-safe:
`name` a safe string, `type` present and hashable, and `description` /
`enum_name` safe strings when present. -/
def cleanAttr (a : YVal) : Bool :=
  match a with
  | .map kvs =>
    (match YVal.lookup kvs "name" with
     | some (.str n) => safeStr n
     | _ => false)
    && (match YVal.lookup kvs "type" with
        | some tv => YVal.hashable tv
        | none => false)
    && (match YVal.lookup kvs "description" with
        | some (.str d) => safeStr d
        | none => true
        | _ => false)
    && (match YVal.lookup kvs "enum_name" with
        | some (.str e) => safeStr e
        | none => true
        | _ => false)
  | _ => false

/-- A document fragment that runs from character-data mode inside any
open element back to character-data mode, touching only the innermost
frame's children. -/
def fragRunW (s : List Char) : Prop :=
  ∀ (t : String) (a : List (String × String)) (k : List XTree)
    (rest : List PFrame) (tops : List XTree) (acc : List Char),
    ∃ k2 acc2, runP ⟨(t, a, k) :: rest, tops, .txt acc⟩ s
      = some ⟨(t, a, k2) :: rest, tops, .txt acc2⟩

/-- C1 counterexample: with a configuration defining exactly the
Widget record, the entity generator run with `--output out` does *not*
produce `out/domain-model/Widget.xml` — `main` ignores the loaded
configuration and generates only its hard-coded entity list. -/
theorem c1_counterexample :
    (dmMainFiles "out" widgetConfig).map
      (fun files => (files.map Prod.fst).contains "out/domain-model/Widget.xml")
      = .ok false := by
  decide

/-- C1 (amended): the generator run emits exactly the hard-coded
entity and enumeration files whatever the configuration says; the
entity *builder* applied directly to the Widget record does produce a
document whose root is `<entity name="Widget">` with exactly one
`<attribute name="Count" type="Integer">` descendant and no
enumeration reference element. -/
theorem c1_amended :
    (dmMainFiles "out" widgetConfig).map (List.map Prod.fst) = .ok dmHardcodedPaths
    ∧ (entityDocOf "Widget" [widgetAttr]).map (fun doc =>
        doc.tagIs "entity" && (doc.attrOf "name" == some "Widget")
        && ((XTree.descTag "attribute" doc).map
              (fun a => (a.attrOf "name", a.attrOf "type"))
            == [(some "Count", some "Integer")])
        && (XTree.descTag "enumeration" doc).isEmpty) = some true := by
  exact ⟨by decide, by decide⟩

/-! ### C2 — totality of the artifact builder -/

theorem exceptOkBind {ε α β : Type} (a : α) (f : α → Except ε β) :
    (Except.ok a >>= f) = f a := rfl

theorem exceptPureBind {ε α β : Type} (a : α) (f : α → Except ε β) :
    ((pure a : Except ε α) >>= f) = f a := rfl

theorem typeMappingGet_ok (v : YVal) (h : v.hashable = true) :
    ∃ s, typeMappingGet v = .ok s := by
  unfold typeMappingGet
  rw [h]
  exact ⟨_, rfl⟩

theorem entityAttrXml_ok (a : YVal) (h : attrRecordOk a = true) :
    ∃ s, entityAttrXml a = .ok s := by
  match a with
  | .map kvs =>
    simp only [attrRecordOk, Bool.and_eq_true] at h
    obtain ⟨⟨hn, ht⟩, hh⟩ := h
    obtain ⟨nv, hnv⟩ := Option.isSome_iff_exists.mp hn
    obtain ⟨tv, htv⟩ := Option.isSome_iff_exists.mp ht
    rw [htv] at hh
    obtain ⟨w, hw⟩ := typeMappingGet_ok tv (by simpa using hh)
    simp only [entityAttrXml, YVal.getItem, YVal.getAttr, htv, hnv, hw, exceptOkBind]
    by_cases h1 : w = "String"
    · subst h1; exact ⟨_, rfl⟩
    · rw [if_neg h1]
      by_cases h2 : w = "Enumeration"
      · subst h2; exact ⟨_, rfl⟩
      · rw [if_neg h2]; exact ⟨_, rfl⟩

theorem entityFold_ok (attrs : List YVal) (h : ∀ a ∈ attrs, attrRecordOk a = true) :
    ∀ acc : String,
      ∃ s, (attrs.foldlM (fun acc a => do pure (acc ++ (← entityAttrXml a))) acc
        : Except String String) = .ok s := by
  induction attrs with
  | nil => exact fun acc => ⟨acc, rfl⟩
  | cons a as ih =>
    intro acc
    obtain ⟨s₁, hs₁⟩ := entityAttrXml_ok a (h a (by simp))
    obtain ⟨s₂, hs₂⟩ := ih (fun b hb => h b (by simp [hb])) (acc ++ s₁)
    refine ⟨s₂, ?_⟩
    rw [List.foldlM_cons]
    simp only [hs₁, exceptOkBind, exceptPureBind]
    exact hs₂

/-- C2 counterexample: the builder is *not* total — an attribute
record without a `type` key raises `KeyError` in
`generate_entity_xml` (line 35, `attr['type']`), so the build fails. -/
theorem c2_counterexample :
    generate_entity_xml "Widget" [.map []] none = .error "KeyError: type" := by
  rfl

/-- C2 (amended): the entity builder is total over records whose
attribute entries are dicts carrying the mandatory `name` and `type`
fields (with a hashable `type` value); other missing fields fall back
to the documented defaults and, in particular, an *unrecognized* type
value maps to `"String"`. -/
theorem c2_amended (nm : String) (attrs : List YVal) (gen : Option String)
    (h : ∀ a ∈ attrs, attrRecordOk a = true) :
    ∃ s, generate_entity_xml nm attrs gen = .ok s := by
  obtain ⟨s, hs⟩ := entityFold_ok attrs h ""
  unfold generate_entity_xml
  simp only [hs, exceptOkBind]
  exact ⟨_, rfl⟩

/-- C2 witness. -/
theorem c2_witness :
    ∃ s, generate_entity_xml "Widget"
      [.map [("name", .str "Count"), ("type", .str "SomethingUnknown")]] none = .ok s :=
  c2_amended _ _ _ (by decide)

/-! ### C4 — byte-identical reruns -/

/-- C4 counterexample: two runs of the build-then-serialize pipeline
on the *same* record yield different bytes when the wall clock has
moved — `generate_microflow_xml` embeds `datetime.now()` in its
header comment. -/
theorem c4_counterexample :
    microflowFileContent "2025-01-01 10:00:00" (.map [])
      ≠ microflowFileContent "2025-01-01 10:00:01" (.map []) := by
  decide

/-- C4 (amended): the pipeline is deterministic in the record *and*
the clock reading: two runs that observe the same
`datetime.now()` string produce byte-identical text. -/
theorem c4_amended (cfg : YVal) (now₁ now₂ : String) (h : now₁ = now₂) :
    microflowFileContent now₁ cfg = microflowFileContent now₂ cfg := by
  rw [h]

/-- C4 witness. -/
theorem c4_witness :
    microflowFileContent "2025-01-01 10:00:00" (.map [])
      = microflowFileContent "2025-01-01 10:00:00" (.map []) :=
  c4_amended _ _ _ rfl

/-! ### C6 — config loader fallback chain -/

/-- C6 counterexample: although a later alternative path holds a valid
configuration, a parse failure on the *first existing* alternative is
not skipped: the single `try/except` around the whole of
`load_config` swallows it and the loader returns `None` instead of the
parsed content of `config/domain-model-config.yaml`. -/
theorem c6_counterexample :
    fsAltBadFirst.pathExists "nope.yaml" = false
    ∧ fsAltBadFirst.pathExists "config/domain-model-config.yaml" = true
    ∧ fsAltBadFirst.read? "config/domain-model-config.yaml" = some "good"
    ∧ parseAlt "good" = .ok (.str "v")
    ∧ load_config fsAltBadFirst parseAlt YVal.null "nope.yaml" = none := by
  exact ⟨by decide, by decide, by rfl, by rfl, by rfl⟩

/-- C6 (amended): with the primary path missing, the loader commits to
the *first existing* alternative path: if its content parses the
loader returns that parse, and if it does not parse the whole load
fails with `None` — later alternatives and the built-in default are
never consulted. -/
theorem c6_amended {α : Type} (fs : FS) (parse : String → Except String α) (dflt : α)
    (path alt c : String)
    (hmiss : fs.pathExists path = false)
    (hfind : alternativePaths.find? (fun p => fs.pathExists p) = some alt)
    (hread : fs.read? alt = some c) :
    (∀ v, parse c = .ok v → load_config fs parse dflt path = some v)
    ∧ (∀ e, parse c = .error e → load_config fs parse dflt path = none) := by
  constructor <;> intro x hx <;>
    simp [load_config, hmiss, hfind, hread, hx, Except.toOption]

/-- C6 witness: a first-existing alternative with parseable content is
returned. -/
theorem c6_witness :
    load_config (⟨[], [("config/lab-workflow-config.yaml", "good")]⟩ : FS)
      parseAlt YVal.null "nope.yaml" = some (.str "v") :=
  (c6_amended _ _ _ _ "config/lab-workflow-config.yaml" "good"
    (by decide) (by rfl) (by rfl)).1 _ rfl

/-! ### C5 — exit status on a batch with failed records -/

/-- C5 counterexample: a generation batch in which the (single) record
fails still exits with status 0 — per-record failures are only
printed, never turned into a non-zero exit. -/
theorem c5_counterexample :
    enumRecordOk c5BadRecord = false
    ∧ enumGenerated [c5BadRecord] = 0
    ∧ load_config c5Fs c5Parse defaultEnumerationsConfig "config.yaml" = some c5BadConfig
    ∧ enumMainExit c5Fs c5Parse "config.yaml" "2025-01-01 10:00:00" = 0 := by
  exact ⟨by decide, by decide, by rfl, by decide⟩

/-- C5 (amended): the generators exit 1 on a load failure and when an
uncaught exception escapes `main` (for the microflow generator, a
non-dict record whose `.get` raises again inside the per-record
`except` handler), and exit 0 otherwise — in particular a run whose
`microflows` list is any non-empty list of dict records exits 0 no
matter how many of them failed to generate. -/
theorem c5_amended (fs : FS) (parse : String → Except String YVal) (path now : String) :
    (load_config fs parse defaultEnumerationsConfig path = none →
      enumMainExit fs parse path now = 1)
    ∧ (load_config fs parse defaultMicroflowsConfig path = none →
      microMainExit fs parse path = 1)
    ∧ (∀ kvs rs, load_config fs parse defaultMicroflowsConfig path = some (.map kvs) →
        YVal.lookup kvs "microflows" = some (.list rs) → rs ≠ [] →
        (∀ r ∈ rs, mfRecordEscapes r = false) →
        microMainExit fs parse path = 0)
    ∧ (∀ kvs rs, load_config fs parse defaultMicroflowsConfig path = some (.map kvs) →
        YVal.lookup kvs "microflows" = some (.list rs) →
        rs.any mfRecordEscapes = true →
        microMainExit fs parse path = 1) := by
  refine ⟨fun h => ?_, fun h => ?_, fun kvs rs h1 h2 h3 h4 => ?_,
    fun kvs rs h1 h2 h4 => ?_⟩
  · simp [enumMainExit, h]
  · simp [microMainExit, h]
  · have hany : rs.any mfRecordEscapes = false := by
      rw [List.any_eq_false]
      intro r hr
      simp [h4 r hr]
    simp [microMainExit, h1, pyContains, YVal.hasKey, h2, YVal.getItem,
      YVal.truthy, pyIter, h3, hany]
  · have h3 : rs ≠ [] := by
      intro he
      subst he
      simp at h4
    simp [microMainExit, h1, pyContains, YVal.hasKey, h2, YVal.getItem,
      YVal.truthy, pyIter, h3, h4]

/-- C5 witness: exit 1 with an unparsable requested config; exit 0
with a loaded config whose single dict record fails serialization; and
exit 1 with a loaded config whose single record is a bare string (the
per-record handler re-raises). -/
theorem c5_witness :
    enumMainExit ⟨[], [("p", "z")]⟩ (fun _ => .error "e") "p" "now" = 1
    ∧ microMainExit c5Fs
        (fun _ => .ok (.map [("microflows", .list [.map [("name", .int 5)]])]))
        "config.yaml" = 0
    ∧ microMainExit c5Fs
        (fun _ => .ok (.map [("microflows", .list [.str "x"])])) "config.yaml" = 1 :=
  ⟨(c5_amended _ _ _ "now").1 (by rfl),
   (c5_amended ⟨[], [("config.yaml", "cfg")]⟩ _ _ "now").2.2.1 _ _ (by rfl) (by rfl)
     (List.cons_ne_nil _ _) (by decide),
   (c5_amended ⟨[], [("config.yaml", "cfg")]⟩ _ _ "now").2.2.2 _ _ (by rfl) (by rfl)
     (by decide)⟩

/-! ### C8 — packager preconditions -/

theorem dirExists_addDir (fs : FS) (d p : String) :
    (fs.addDir d).dirExists p = (p = d || fs.dirExists p) := by
  simp [FS.addDir, FS.dirExists, List.contains_cons, Bool.or_comm]

theorem pathExists_addDir (fs : FS) (d p : String) :
    (fs.addDir d).pathExists p = (p = d || fs.pathExists p) := by
  simp only [FS.pathExists, dirExists_addDir]
  have hfe : (fs.addDir d).fileExists p = fs.fileExists p := rfl
  rw [hfe]
  cases h : fs.fileExists p <;> cases hq : fs.dirExists p <;>
    by_cases hpd : p = d <;> simp [h, hq, hpd]

theorem globXml_addDir (fs : FS) (d p : String) :
    (fs.addDir d).globXml p = fs.globXml p := rfl

theorem fileExists_addDir (fs : FS) (d p : String) :
    (fs.addDir d).fileExists p = fs.fileExists p := rfl

/-- C8: the packager fails (exit 1) when the output root is absent or
when zero eligible XML files exist across the artifact-kind
subdirectories, succeeds otherwise; and a missing artifact-kind
subdirectory is skipped silently — materializing it as an empty
directory changes neither the archive entries nor the exit status. -/
theorem c8 (fs : FS) (out : String) :
    (fs.pathExists out = false → mpkMainExit fs out = 1)
    ∧ (fs.pathExists out = true → mpkCountFiles fs out = 0 → mpkMainExit fs out = 1)
    ∧ (fs.pathExists out = true → mpkCountFiles fs out ≠ 0 → mpkMainExit fs out = 0)
    ∧ (∀ sub ∈ mpkSubdirs, fs.globXml ("output/" ++ sub) = [] →
        create_mpk_entries (fs.addDir ("output/" ++ sub)) = create_mpk_entries fs
        ∧ mpkMainExit (fs.addDir ("output/" ++ sub)) "output" = mpkMainExit fs "output") := by
  refine ⟨fun h => by simp [mpkMainExit, h], fun h h0 => by simp [mpkMainExit, h, h0],
    fun h h0 => by simp [mpkMainExit, h, h0], fun sub hsub hglob => ?_⟩
  simp only [mpkSubdirs, List.mem_cons, List.not_mem_nil, or_false] at hsub
  rcases hsub with rfl | rfl | rfl | rfl | rfl | rfl <;>
    simp only [String.reduceAppend] at hglob <;>
    exact ⟨by simp [create_mpk_entries, mpkSubdirs, dirExists_addDir, globXml_addDir,
        fileExists_addDir, hglob, ite_self],
      by simp [mpkMainExit, mpkCountFiles, mpkSubdirs, pathExists_addDir,
        globXml_addDir, hglob, ite_self]⟩

/-- C8 witness: root present with one eligible file packs with exit 0,
and an absent `enumerations` subdirectory is equivalent to an empty
one. -/
theorem c8_witness :
    mpkMainExit ⟨["output", "output/pages"], [("output/pages/X.xml", "x")]⟩ "output" = 0
    ∧ create_mpk_entries
        ((⟨["output", "output/pages"], [("output/pages/X.xml", "x")]⟩ : FS).addDir
          "output/enumerations")
      = create_mpk_entries ⟨["output", "output/pages"], [("output/pages/X.xml", "x")]⟩ :=
  ⟨(c8 ⟨["output", "output/pages"], [("output/pages/X.xml", "x")]⟩ "output").2.2.1
      (by decide) (by decide),
   ((c8 ⟨["output", "output/pages"], [("output/pages/X.xml", "x")]⟩ "output").2.2.2
      "enumerations" (by decide) (by decide)).1⟩

/-! ### C10 — enumeration value captions -/

/-- C10: in the enumerations generator, a value record lacking a
`caption` gets its caption from the `name` field; with `name` also
absent, both attributes are the placeholder `"UnknownValue"`. -/
theorem c10 (kvs : List (String × YVal)) (h : YVal.hasKey kvs "caption" = false) :
    ((genValueElem (.map kvs)).toOption.bind (fun e => XNode.attrOf e "caption"))
      = some (YVal.getD kvs "name" (.str "UnknownValue"))
    ∧ ((genValueElem (.map kvs)).toOption.bind (fun e => XNode.attrOf e "name"))
      = ((genValueElem (.map kvs)).toOption.bind (fun e => XNode.attrOf e "caption"))
    ∧ (YVal.hasKey kvs "name" = false →
        ((genValueElem (.map kvs)).toOption.bind (fun e => XNode.attrOf e "caption"))
          = some (.str "UnknownValue")
        ∧ ((genValueElem (.map kvs)).toOption.bind (fun e => XNode.attrOf e "name"))
          = some (.str "UnknownValue")) := by
  have hcap : YVal.lookup kvs "caption" = none := by
    cases hl : YVal.lookup kvs "caption" with
    | none => rfl
    | some v => rw [YVal.hasKey, hl] at h; simp at h
  refine ⟨?_, ?_, fun hn => ?_⟩
  · simp [genValueElem, hcap, XNode.attrOf, List.find?, Except.toOption]
  · simp [genValueElem, hcap, XNode.attrOf, List.find?, Except.toOption]
  · have hname : YVal.lookup kvs "name" = none := by
      cases hl : YVal.lookup kvs "name" with
      | none => rfl
      | some v => rw [YVal.hasKey, hl] at hn; simp at hn
    constructor <;>
      simp [genValueElem, hcap, hname, XNode.attrOf, List.find?, Except.toOption,
        YVal.getD]

/-- C10 witness: a value record with only a `name`. -/
theorem c10_witness :
    ((genValueElem (.map [("name", .str "Pending")])).toOption.bind
        (fun e => XNode.attrOf e "caption"))
      = some (YVal.getD [("name", .str "Pending")] "name" (.str "UnknownValue")) :=
  (c10 _ (by decide)).1

/-! ### C9 — the fixed flow skeleton of every generated microflow -/

theorem exceptBindOkInv {ε α β : Type} {x : Except ε α} {f : α → Except ε β} {b : β}
    (h : (x >>= f) = .ok b) : ∃ a, x = .ok a ∧ f a = .ok b := by
  cases x with
  | ok a => exact ⟨a, rfl, h⟩
  | error e => rw [show (Except.error e >>= f) = Except.error e from rfl] at h; cases h

theorem exceptPureOkInv {ε α : Type} {a b : α} (h : (pure a : Except ε α) = .ok b) :
    a = b :=
  Except.ok.inj h

theorem filter_flow_nil (L : List XNode) (hL : L.all (fun n => !(n.tagIs "flow")) = true) :
    L.filter (fun n => n.tagIs "flow") = [] := by
  rw [List.filter_eq_nil_iff]
  intro a ha
  have := List.all_eq_true.mp hL a ha
  simp at this
  simp [this]

/-- C9: whenever `generate_microflow_xml` succeeds, the document's
flow section is the unique `<flow>` child, and it contains exactly one
start element with id `start`, exactly one end element with id `end`,
and exactly one `sequenceFlow` from `start` to `end`. -/
theorem c9 (now : String) (cfg : YVal) (m : XNode)
    (h : generate_microflow_xml now cfg = .ok m) :
    ∃ f, (XNode.childrenOf m).filter (fun n => n.tagIs "flow") = [f]
      ∧ ((XNode.childrenOf f).filter
          (fun n => n.tagIs "start" && attrIsStr n "id" "start")).length = 1
      ∧ ((XNode.childrenOf f).filter
          (fun n => n.tagIs "end" && attrIsStr n "id" "end")).length = 1
      ∧ ((XNode.childrenOf f).filter
          (fun n => n.tagIs "sequenceFlow" && attrIsStr n "sourceRef" "start"
            && attrIsStr n "targetRef" "end")).length = 1 := by
  refine ⟨mfFlowElem, ?_, by decide, by decide, by decide⟩
  cases cfg with
  | str s => exact absurd h (by simp [generate_microflow_xml])
  | int n => exact absurd h (by simp [generate_microflow_xml])
  | bool b => exact absurd h (by simp [generate_microflow_xml])
  | null => exact absurd h (by simp [generate_microflow_xml])
  | list xs => exact absurd h (by simp [generate_microflow_xml])
  | map kvs =>
    simp only [generate_microflow_xml] at h
    obtain ⟨r1, _, h⟩ := exceptBindOkInv h
    obtain ⟨docNodes, hdoc, h⟩ := exceptBindOkInv h
    obtain ⟨paramNodes, hpar, h⟩ := exceptBindOkInv h
    obtain ⟨returnNodes, hret, h⟩ := exceptBindOkInv h
    obtain ⟨secNodes, hsec, h⟩ := exceptBindOkInv h
    have hD : docNodes.all (fun n => !(n.tagIs "flow")) = true := by
      unfold mfDocSegment at hdoc
      cases hl : YVal.lookup kvs "description" with
      | none =>
        rw [hl] at hdoc
        rw [← exceptPureOkInv hdoc]
        rfl
      | some d =>
        rw [hl] at hdoc
        obtain ⟨r2, _, h2⟩ := exceptBindOkInv hdoc
        rw [← exceptPureOkInv h2]
        rfl
    have hP : paramNodes.all (fun n => !(n.tagIs "flow")) = true := by
      unfold mfParamSegment at hpar
      by_cases hc : (Option.map YVal.truthy (YVal.lookup kvs "parameters")).getD false = true
      · rw [if_pos hc] at hpar
        obtain ⟨ps, _, h2⟩ := exceptBindOkInv hpar
        obtain ⟨body, _, h3⟩ := exceptBindOkInv h2
        rw [← exceptPureOkInv h3]
        rfl
      · rw [if_neg hc] at hpar
        rw [← exceptPureOkInv hpar]
        rfl
    have hR : returnNodes.all (fun n => !(n.tagIs "flow")) = true := by
      unfold mfReturnSegment at hret
      cases hl : YVal.lookup kvs "return_type" with
      | none =>
        rw [hl] at hret
        rw [← exceptPureOkInv hret]
        rfl
      | some rt =>
        rw [hl] at hret
        rw [← exceptPureOkInv hret]
        rfl
    have hS : secNodes.all (fun n => !(n.tagIs "flow")) = true := by
      unfold mfSecuritySegment at hsec
      cases hl : YVal.lookup kvs "security_roles" with
      | none =>
        rw [hl] at hsec
        rw [← exceptPureOkInv hsec]
        rfl
      | some roles =>
        rw [hl] at hsec
        obtain ⟨j2, _, h2⟩ := exceptBindOkInv hsec
        obtain ⟨rs, _, h3⟩ := exceptBindOkInv h2
        rw [← exceptPureOkInv h3]
        rfl
    rw [← exceptPureOkInv h]
    simp only [XNode.childrenOf, List.filter_cons, List.filter_append,
      filter_flow_nil _ hD, filter_flow_nil _ hP, filter_flow_nil _ hR,
      filter_flow_nil _ hS]
    simp [XNode.tagIs, mfFlowElem]

/-! ### C7 — the validator on a complete-but-one output tree -/

theorem flattenMapNilStr (l : List String) (f : String → List String)
    (h : ∀ a ∈ l, f a = []) : (l.map f).flatten = [] := by
  induction l with
  | nil => rfl
  | cons a as ih =>
    simp [h a (by simp), ih (fun b hb => h b (by simp [hb]))]

theorem flattenMapSingle (l : List String) (f : String → List String) (x m : String)
    (hx : x ∈ l) (hcount : l.count x = 1)
    (hother : ∀ a ∈ l, a ≠ x → f a = []) (hfx : f x = [m]) :
    (l.map f).flatten = [m] := by
  induction l with
  | nil => cases hx
  | cons a as ih =>
    by_cases ha : a = x
    · subst ha
      have h0 : as.count a = 0 := by
        rw [List.count_cons_self] at hcount
        omega
      have hnil : ∀ b ∈ as, f b = [] := by
        intro b hb
        by_cases hbx : b = a
        · subst hbx
          exact absurd (List.count_pos_iff.mpr hb) (by omega)
        · exact hother b (by simp [hb]) hbx
      simp [hfx, flattenMapNilStr as f hnil]
    · have hfa : f a = [] := hother a (by simp) (fun he => ha he)
      have hx' : x ∈ as := by
        rcases List.mem_cons.mp hx with he | hm
        · exact absurd he.symm ha
        · exact hm
      have hc' : as.count x = 1 := by
        rw [List.count_cons] at hcount
        simpa [ha] using hcount
      simp only [List.map_cons, List.flatten_cons, hfa, List.nil_append]
      exact ih hx' hc' (fun b hb hbx => hother b (by simp [hb]) hbx)

theorem xmlArtifactIssues_nil (fs : FS) (dir name msg : String)
    (hex : fs.fileExists (dir ++ "/" ++ name ++ ".xml") = true)
    (hcl : validate_xml_syntax ((fs.read? (dir ++ "/" ++ name ++ ".xml")).getD "") = true) :
    xmlArtifactIssues fs dir name msg = [] := by
  simp [xmlArtifactIssues, hex, hcl]

theorem xmlArtifactIssues_missing (fs : FS) (dir name msg : String)
    (hex : fs.fileExists (dir ++ "/" ++ name ++ ".xml") = false) :
    xmlArtifactIssues fs dir name msg = [msg ++ name] := by
  simp [xmlArtifactIssues, hex]

theorem microflowIssues_nil (fs : FS) (dir name : String)
    (hex : fs.fileExists (dir ++ "/" ++ name ++ ".xml") = true)
    (hcl : fileClean .microflow ((fs.read? (dir ++ "/" ++ name ++ ".xml")).getD "") = true) :
    microflowIssues fs dir name = [] := by
  simp only [fileClean, Bool.and_eq_true] at hcl
  obtain ⟨hxml, hrefs⟩ := hcl
  simp [microflowIssues, hex, hxml, List.isEmpty_iff.mp hrefs]

theorem microflowIssues_missing (fs : FS) (dir name : String)
    (hex : fs.fileExists (dir ++ "/" ++ name ++ ".xml") = false) :
    microflowIssues fs dir name = ["Missing core microflow: " ++ name] := by
  simp [microflowIssues, hex]

theorem securityRoleIssues_nil (fs : FS) (dir role : String)
    (hex : fs.fileExists (dir ++ "/" ++ role ++ ".xml") = true)
    (hcl : fileClean .securityRole ((fs.read? (dir ++ "/" ++ role ++ ".xml")).getD "") = true) :
    securityRoleIssues fs dir role = [] := by
  simp only [fileClean, Bool.and_eq_true] at hcl
  obtain ⟨hxml, hrefs, hxp⟩ := hcl
  simp [securityRoleIssues, hex, hxml, List.isEmpty_iff.mp hrefs, List.isEmpty_iff.mp hxp]

theorem securityRoleIssues_missing (fs : FS) (dir role : String)
    (hex : fs.fileExists (dir ++ "/" ++ role ++ ".xml") = false) :
    securityRoleIssues fs dir role = ["Missing required security role: " ++ role] := by
  simp [securityRoleIssues, hex]

/-- C7: run against an output tree complete except for one required
artifact, the validator reports exactly the one "missing" issue naming
that artifact and exits with status 1. -/
theorem c7 (fs : FS) (out : String) (k : ReqKind) (x : String)
    (hx : x ∈ reqList k) (hc : completeExcept fs out k x = true) :
    validatorMain fs out false = (1, [missingMsg k x]) := by
  simp only [completeExcept, Bool.and_eq_true] at hc
  obtain ⟨⟨⟨hstr, hout⟩, hdirs⟩, hall⟩ := hc
  have hstr2 : (validate_project_structure fs).2 = [] :=
    List.isEmpty_iff.mp hstr
  have hdir : ∀ kd ∈ allKinds, fs.dirExists (reqDir out kd) = true :=
    fun kd hkd => List.all_eq_true.mp hdirs kd hkd
  have hitem : ∀ kd ∈ allKinds, ∀ nm ∈ reqList kd,
      (if kd = k ∧ nm = x then !fs.fileExists (artifactPath out kd nm)
       else fs.fileExists (artifactPath out kd nm)
         && fileClean kd ((fs.read? (artifactPath out kd nm)).getD "")) = true :=
    fun kd hkd nm hnm => List.all_eq_true.mp (List.all_eq_true.mp hall kd hkd) nm hnm
  have hpres : ∀ kd ∈ allKinds, ∀ nm ∈ reqList kd, ¬(kd = k ∧ nm = x) →
      fs.fileExists (artifactPath out kd nm) = true
      ∧ fileClean kd ((fs.read? (artifactPath out kd nm)).getD "") = true := by
    intro kd hkd nm hnm hne
    have := hitem kd hkd nm hnm
    rw [if_neg hne] at this
    simpa only [Bool.and_eq_true] using this
  have hmiss : fs.fileExists (artifactPath out k x) = false := by
    have := hitem k (by cases k <;> simp [allKinds]) x hx
    rw [if_pos ⟨rfl, rfl⟩] at this
    simpa using this
  -- per-name nil results for present artifacts of each kind
  have hEntI : ∀ nm ∈ requiredEntities, ¬(ReqKind.entity = k ∧ nm = x) →
      xmlArtifactIssues fs (out ++ "/domain-model") nm "Missing required entity: " = [] := by
    intro nm hnm hne
    obtain ⟨hex, hcl⟩ := hpres .entity (by simp [allKinds]) nm hnm hne
    exact xmlArtifactIssues_nil _ _ _ _ hex (by simpa [fileClean] using hcl)
  have hEnumI : ∀ nm ∈ requiredEnums, ¬(ReqKind.enumKind = k ∧ nm = x) →
      xmlArtifactIssues fs (out ++ "/enumerations") nm "Missing required enumeration: " = [] := by
    intro nm hnm hne
    obtain ⟨hex, hcl⟩ := hpres .enumKind (by simp [allKinds]) nm hnm hne
    exact xmlArtifactIssues_nil _ _ _ _ hex (by simpa [fileClean] using hcl)
  have hMicI : ∀ nm ∈ coreMicroflows, ¬(ReqKind.microflow = k ∧ nm = x) →
      microflowIssues fs (out ++ "/microflows") nm = [] := by
    intro nm hnm hne
    obtain ⟨hex, hcl⟩ := hpres .microflow (by simp [allKinds]) nm hnm hne
    exact microflowIssues_nil _ _ _ hex hcl
  have hSecI : ∀ nm ∈ requiredRoles, ¬(ReqKind.securityRole = k ∧ nm = x) →
      securityRoleIssues fs (out ++ "/security") nm = [] := by
    intro nm hnm hne
    obtain ⟨hex, hcl⟩ := hpres .securityRole (by simp [allKinds]) nm hnm hne
    exact securityRoleIssues_nil _ _ _ hex hcl
  have hdirE := hdir .entity (by simp [allKinds])
  have hdirN := hdir .enumKind (by simp [allKinds])
  have hdirM := hdir .microflow (by simp [allKinds])
  have hdirR := hdir .securityRole (by simp [allKinds])
  simp only [reqDir] at hdirE hdirN hdirM hdirR
  cases k with
  | entity =>
    have hEnt : ((requiredEntities.map (fun e =>
        xmlArtifactIssues fs (out ++ "/domain-model") e "Missing required entity: ")).flatten)
        = ["Missing required entity: " ++ x] :=
      flattenMapSingle _ _ x _ hx
        (List.count_eq_one_of_mem (by decide) hx)
        (fun a ha hne => hEntI a ha (by simp [hne]))
        (xmlArtifactIssues_missing _ _ _ _ hmiss)
    have hEnum : ((requiredEnums.map (fun e =>
        xmlArtifactIssues fs (out ++ "/enumerations") e "Missing required enumeration: ")).flatten)
        = [] :=
      flattenMapNilStr _ _ (fun a ha => hEnumI a ha (by simp))
    have hMic : ((coreMicroflows.map (microflowIssues fs (out ++ "/microflows"))).flatten) = [] :=
      flattenMapNilStr _ _ (fun a ha => hMicI a ha (by simp))
    have hSec : ((requiredRoles.map (securityRoleIssues fs (out ++ "/security"))).flatten) = [] :=
      flattenMapNilStr _ _ (fun a ha => hSecI a ha (by simp))
    simp [validatorMain, hout, validate_domain_model, validate_microflows,
      validate_security_roles, hdirE, hdirN, hdirM, hdirR, hEnt, hEnum, hMic, hSec,
      hstr, hstr2, missingMsg]
  | enumKind =>
    have hEnt : ((requiredEntities.map (fun e =>
        xmlArtifactIssues fs (out ++ "/domain-model") e "Missing required entity: ")).flatten)
        = [] :=
      flattenMapNilStr _ _ (fun a ha => hEntI a ha (by simp))
    have hEnum : ((requiredEnums.map (fun e =>
        xmlArtifactIssues fs (out ++ "/enumerations") e "Missing required enumeration: ")).flatten)
        = ["Missing required enumeration: " ++ x] :=
      flattenMapSingle _ _ x _ hx
        (List.count_eq_one_of_mem (by decide) hx)
        (fun a ha hne => hEnumI a ha (by simp [hne]))
        (xmlArtifactIssues_missing _ _ _ _ hmiss)
    have hMic : ((coreMicroflows.map (microflowIssues fs (out ++ "/microflows"))).flatten) = [] :=
      flattenMapNilStr _ _ (fun a ha => hMicI a ha (by simp))
    have hSec : ((requiredRoles.map (securityRoleIssues fs (out ++ "/security"))).flatten) = [] :=
      flattenMapNilStr _ _ (fun a ha => hSecI a ha (by simp))
    simp [validatorMain, hout, validate_domain_model, validate_microflows,
      validate_security_roles, hdirE, hdirN, hdirM, hdirR, hEnt, hEnum, hMic, hSec,
      hstr, hstr2, missingMsg]
  | microflow =>
    have hEnt : ((requiredEntities.map (fun e =>
        xmlArtifactIssues fs (out ++ "/domain-model") e "Missing required entity: ")).flatten)
        = [] :=
      flattenMapNilStr _ _ (fun a ha => hEntI a ha (by simp))
    have hEnum : ((requiredEnums.map (fun e =>
        xmlArtifactIssues fs (out ++ "/enumerations") e "Missing required enumeration: ")).flatten)
        = [] :=
      flattenMapNilStr _ _ (fun a ha => hEnumI a ha (by simp))
    have hMic : ((coreMicroflows.map (microflowIssues fs (out ++ "/microflows"))).flatten)
        = ["Missing core microflow: " ++ x] :=
      flattenMapSingle _ _ x _ hx
        (List.count_eq_one_of_mem (by decide) hx)
        (fun a ha hne => hMicI a ha (by simp [hne]))
        (microflowIssues_missing _ _ _ hmiss)
    have hSec : ((requiredRoles.map (securityRoleIssues fs (out ++ "/security"))).flatten) = [] :=
      flattenMapNilStr _ _ (fun a ha => hSecI a ha (by simp))
    simp [validatorMain, hout, validate_domain_model, validate_microflows,
      validate_security_roles, hdirE, hdirN, hdirM, hdirR, hEnt, hEnum, hMic, hSec,
      hstr, hstr2, missingMsg]
  | securityRole =>
    have hEnt : ((requiredEntities.map (fun e =>
        xmlArtifactIssues fs (out ++ "/domain-model") e "Missing required entity: ")).flatten)
        = [] :=
      flattenMapNilStr _ _ (fun a ha => hEntI a ha (by simp))
    have hEnum : ((requiredEnums.map (fun e =>
        xmlArtifactIssues fs (out ++ "/enumerations") e "Missing required enumeration: ")).flatten)
        = [] :=
      flattenMapNilStr _ _ (fun a ha => hEnumI a ha (by simp))
    have hMic : ((coreMicroflows.map (microflowIssues fs (out ++ "/microflows"))).flatten) = [] :=
      flattenMapNilStr _ _ (fun a ha => hMicI a ha (by simp))
    have hSec : ((requiredRoles.map (securityRoleIssues fs (out ++ "/security"))).flatten)
        = ["Missing required security role: " ++ x] :=
      flattenMapSingle _ _ x _ hx
        (List.count_eq_one_of_mem (by decide) hx)
        (fun a ha hne => hSecI a ha (by simp [hne]))
        (securityRoleIssues_missing _ _ _ hmiss)
    simp [validatorMain, hout, validate_domain_model, validate_microflows,
      validate_security_roles, hdirE, hdirN, hdirM, hdirR, hEnt, hEnum, hMic, hSec,
      hstr, hstr2, missingMsg]

/-- C7 witness. -/
theorem c7_witness :
    validatorMain c7Fs "output" false
      = (1, [missingMsg ReqKind.entity "ProductValidation"]) :=
  c7 c7Fs "output" ReqKind.entity "ProductValidation" (by decide) (by decide)

/-- C9 witness. -/
theorem c9_witness :
    ∃ f, (XNode.childrenOf c9SampleDoc).filter (fun n => n.tagIs "flow") = [f]
      ∧ ((XNode.childrenOf f).filter
          (fun n => n.tagIs "start" && attrIsStr n "id" "start")).length = 1
      ∧ ((XNode.childrenOf f).filter
          (fun n => n.tagIs "end" && attrIsStr n "id" "end")).length = 1
      ∧ ((XNode.childrenOf f).filter
          (fun n => n.tagIs "sequenceFlow" && attrIsStr n "sourceRef" "start"
            && attrIsStr n "targetRef" "end")).length = 1 :=
  c9 "2025-01-01 10:00:00" (.map []) c9SampleDoc (by rfl)

/-! ### C3 — well-formedness of the serialized entity documents

`generate_entity_xml` performs no XML escaping, so a field value
containing `&`, `<` or a quote produces ill-formed output
(counterexample below).  The amended claim restricts records to
XML-safe field text; its proof walks the template with the parser,
composing per-fragment runs. -/

theorem runP_append (st : PState) (a b : List Char) :
    runP st (a ++ b) = (runP st a).bind (fun st2 => runP st2 b) := by
  induction a generalizing st with
  | nil => simp [runP]
  | cons c cs ih =>
    simp only [List.cons_append, runP]
    cases h : step st c with
    | none => simp
    | some st2 => simp [ih]

theorem runP_seq {st1 st2 st3 : PState} {a b : List Char}
    (h1 : runP st1 a = some st2) (h2 : runP st2 b = some st3) :
    runP st1 (a ++ b) = some st3 := by
  rw [runP_append, h1]
  simpa

theorem runP_singleton (st : PState) (c : Char) : runP st [c] = step st c := by
  cases h : step st c <;> simp [runP, h]

theorem isEmpty_false_of_ne_nil {α : Type} {l : List α} (h : l ≠ []) :
    l.isEmpty = false := by
  cases l with
  | nil => exact absurd rfl h
  | cons a as => rfl

/-- Safe characters accumulate in character-data mode. -/
theorem runP_txt_safe (stack : List PFrame) (tops : List XTree) (acc cs : List Char)
    (hst : stack ≠ []) (hcs : ∀ c ∈ cs, safeChar c = true) :
    runP ⟨stack, tops, .txt acc⟩ cs = some ⟨stack, tops, .txt (acc ++ cs)⟩ := by
  induction cs generalizing acc with
  | nil => simp [runP]
  | cons c cs ih =>
    have hc := hcs c (by simp)
    simp only [safeChar, Bool.not_eq_eq_eq_not, Bool.not_true, Bool.or_eq_false_iff,
      decide_eq_false_iff_not] at hc
    obtain ⟨⟨⟨⟨h1, h2⟩, h3⟩, h4⟩, h5⟩ := hc
    have hstep : step ⟨stack, tops, .txt acc⟩ c = some ⟨stack, tops, .txt (acc ++ [c])⟩ := by
      simp only [step]
      rw [if_neg h2, if_neg h1]
      by_cases hws : isXmlWs c = true
      · rw [if_pos hws]
      · rw [if_neg hws, if_neg (by simp [isEmpty_false_of_ne_nil hst])]
    simp only [runP, hstep]
    rw [ih (acc ++ [c]) (fun x hx => hcs x (by simp [hx]))]
    simp

/-- Safe characters accumulate inside a double-quoted attribute value. -/
theorem runP_attr_safe (stack : List PFrame) (tops : List XTree)
    (t : String) (as_ : List (String × String)) (an : String) (acc cs : List Char)
    (hcs : ∀ c ∈ cs, safeChar c = true) :
    runP ⟨stack, tops, .attrVal t as_ an '"' acc⟩ cs
      = some ⟨stack, tops, .attrVal t as_ an '"' (acc ++ cs)⟩ := by
  induction cs generalizing acc with
  | nil => simp [runP]
  | cons c cs ih =>
    have hc := hcs c (by simp)
    simp only [safeChar, Bool.not_eq_eq_eq_not, Bool.not_true, Bool.or_eq_false_iff,
      decide_eq_false_iff_not] at hc
    obtain ⟨⟨⟨⟨h1, h2⟩, h3⟩, h4⟩, h5⟩ := hc
    have hstep : step ⟨stack, tops, .attrVal t as_ an '"' acc⟩ c
        = some ⟨stack, tops, .attrVal t as_ an '"' (acc ++ [c])⟩ := by
      simp only [step]
      rw [if_neg h4, if_neg h2, if_neg h1]
    simp only [runP, hstep]
    rw [ih (acc ++ [c]) (fun x hx => hcs x (by simp [hx]))]
    simp

/-- Name characters accumulate while reading a start-tag name. -/
theorem runP_openName (stack : List PFrame) (tops : List XTree) (nm cs : List Char)
    (hcs : ∀ c ∈ cs, isNameChar c = true) :
    runP ⟨stack, tops, .openName nm⟩ cs = some ⟨stack, tops, .openName (nm ++ cs)⟩ := by
  induction cs generalizing nm with
  | nil => simp [runP]
  | cons c cs ih =>
    have hc := hcs c (by simp)
    have hstep : step ⟨stack, tops, .openName nm⟩ c
        = some ⟨stack, tops, .openName (nm ++ [c])⟩ := by
      simp only [step]
      rw [if_pos hc]
    simp only [runP, hstep]
    rw [ih (nm ++ [c]) (fun x hx => hcs x (by simp [hx]))]
    simp

/-- Name characters accumulate while reading an attribute name. -/
theorem runP_attrNmAcc (stack : List PFrame) (tops : List XTree)
    (t : String) (as_ : List (String × String)) (an cs : List Char)
    (hcs : ∀ c ∈ cs, isNameChar c = true) :
    runP ⟨stack, tops, .attrNm t as_ an⟩ cs
      = some ⟨stack, tops, .attrNm t as_ (an ++ cs)⟩ := by
  induction cs generalizing an with
  | nil => simp [runP]
  | cons c cs ih =>
    have hc := hcs c (by simp)
    have hstep : step ⟨stack, tops, .attrNm t as_ an⟩ c
        = some ⟨stack, tops, .attrNm t as_ (an ++ [c])⟩ := by
      simp only [step]
      rw [if_pos hc]
    simp only [runP, hstep]
    rw [ih (an ++ [c]) (fun x hx => hcs x (by simp [hx]))]
    simp

/-- Name characters accumulate while reading an end-tag name. -/
theorem runP_closeNmAcc (stack : List PFrame) (tops : List XTree) (acc nm cs : List Char)
    (hcs : ∀ c ∈ cs, isNameChar c = true) :
    runP ⟨stack, tops, .closeNm acc nm⟩ cs
      = some ⟨stack, tops, .closeNm acc (nm ++ cs)⟩ := by
  induction cs generalizing nm with
  | nil => simp [runP]
  | cons c cs ih =>
    have hc := hcs c (by simp)
    have hstep : step ⟨stack, tops, .closeNm acc nm⟩ c
        = some ⟨stack, tops, .closeNm acc (nm ++ [c])⟩ := by
      simp only [step]
      rw [if_pos hc]
    simp only [runP, hstep]
    rw [ih (nm ++ [c]) (fun x hx => hcs x (by simp [hx]))]
    simp

theorem flushTxt_shape (t : String) (a : List (String × String)) (k : List XTree)
    (rest : List PFrame) (tops : List XTree) (m : PMode) (acc : List Char) :
    ∃ k2, flushTxt ⟨(t, a, k) :: rest, tops, m⟩ acc = ⟨(t, a, k2) :: rest, tops, m⟩ := by
  unfold flushTxt addNode
  by_cases h : acc.isEmpty
  · rw [if_pos h]
    exact ⟨k, rfl⟩
  · rw [if_neg h]
    exact ⟨XTree.text (String.mk acc) :: k, rfl⟩

theorem isNameChar_facts {c : Char} (h : isNameChar c = true) :
    c ≠ '/' ∧ c ≠ '!' ∧ c ≠ '?' ∧ c ≠ '>' ∧ c ≠ '<' ∧ isXmlWs c = false
      ∧ c ≠ '=' ∧ c ≠ '"' := by
  have hff : ∀ d : Char, isNameChar d = false → c ≠ d := by
    intro d hd he
    subst he
    rw [h] at hd
    cases hd
  refine ⟨hff _ (by decide), hff _ (by decide), hff _ (by decide), hff _ (by decide),
    hff _ (by decide), ?_, hff _ (by decide), hff _ (by decide)⟩
  cases hw : isXmlWs c with
  | false => rfl
  | true =>
    exfalso
    simp only [isXmlWs, Bool.or_eq_true, decide_eq_true_eq] at hw
    rcases hw with ((rfl | rfl) | rfl) | rfl <;> exact absurd h (by decide)

theorem runP_cons {st st2 : PState} {c : Char} {cs : List Char}
    (h : step st c = some st2) : runP st (c :: cs) = runP st2 cs := by
  simp [runP, h]

/-- Opening `<tg>` from character-data mode: pending text is flushed
into the innermost open element and a fresh frame is pushed. -/
theorem runP_openTag (tg : List Char) (t : String) (a : List (String × String))
    (k : List XTree) (rest : List PFrame) (tops : List XTree) (acc : List Char)
    (htg : tg ≠ []) (hchars : ∀ c ∈ tg, isNameChar c = true) :
    ∃ k2, runP ⟨(t, a, k) :: rest, tops, .txt acc⟩ ('<' :: tg ++ ['>'])
      = some ⟨(String.mk tg, [], []) :: (t, a, k2) :: rest, tops, .txt []⟩ := by
  obtain ⟨c0, tgr, rfl⟩ : ∃ c0 tgr, tg = c0 :: tgr := by
    cases tg with
    | nil => exact absurd rfl htg
    | cons c0 tgr => exact ⟨c0, tgr, rfl⟩
  have hc0 := hchars c0 (by simp)
  obtain ⟨hs1, hs2, hs3, _, _, _, _, _⟩ := isNameChar_facts hc0
  obtain ⟨k2, hflush⟩ := flushTxt_shape t a k rest tops (.ltSeen acc) acc
  refine ⟨k2, ?_⟩
  have h1 : step ⟨(t, a, k) :: rest, tops, .txt acc⟩ '<'
      = some ⟨(t, a, k) :: rest, tops, .ltSeen acc⟩ := by
    simp [step]
  have h2 : step ⟨(t, a, k) :: rest, tops, .ltSeen acc⟩ c0
      = some ⟨(t, a, k2) :: rest, tops, .openName [c0]⟩ := by
    simp only [step]
    rw [if_neg hs1, if_neg hs2, if_neg hs3, if_pos hc0, hflush]
  have h3 := runP_openName ((t, a, k2) :: rest) tops [c0] tgr
    (fun x hx => hchars x (by simp [hx]))
  have h4 : step ⟨(t, a, k2) :: rest, tops, .openName ([c0] ++ tgr)⟩ '>'
      = some ⟨(String.mk (c0 :: tgr), [], []) :: (t, a, k2) :: rest, tops, .txt []⟩ := by
    simp [step, isNameChar, isXmlWs]
  show runP _ ('<' :: ((c0 :: tgr) ++ ['>'])) = _
  rw [runP_cons h1]
  show runP _ (c0 :: (tgr ++ ['>'])) = _
  rw [runP_cons h2]
  exact runP_seq h3 (by rw [runP_singleton]; exact h4)

/-- Closing `</tg>` with a parent frame below: the element is attached
to the parent. -/
theorem runP_closeTagInner (tg : List Char) (a : List (String × String)) (k : List XTree)
    (t2 : String) (a2 : List (String × String)) (k2 : List XTree)
    (rest : List PFrame) (tops : List XTree) (acc : List Char)
    (htg : tg ≠ []) (hchars : ∀ c ∈ tg, isNameChar c = true) :
    ∃ k3, runP ⟨(String.mk tg, a, k) :: (t2, a2, k2) :: rest, tops, .txt acc⟩
        ('<' :: '/' :: tg ++ ['>'])
      = some ⟨(t2, a2, k3) :: rest, tops, .txt []⟩ := by
  obtain ⟨kf, hflush⟩ := flushTxt_shape (String.mk tg) a k ((t2, a2, k2) :: rest) tops
    (.closeNm acc tg) acc
  refine ⟨XTree.elem (String.mk tg) a kf.reverse :: k2, ?_⟩
  have h1 : step ⟨(String.mk tg, a, k) :: (t2, a2, k2) :: rest, tops, .txt acc⟩ '<'
      = some ⟨(String.mk tg, a, k) :: (t2, a2, k2) :: rest, tops, .ltSeen acc⟩ := by
    simp [step]
  have h2 : step ⟨(String.mk tg, a, k) :: (t2, a2, k2) :: rest, tops, .ltSeen acc⟩ '/'
      = some ⟨(String.mk tg, a, k) :: (t2, a2, k2) :: rest, tops, .closeNm acc []⟩ := by
    simp [step]
  have h3 := runP_closeNmAcc ((String.mk tg, a, k) :: (t2, a2, k2) :: rest) tops acc [] tg
    hchars
  have h4 : step ⟨(String.mk tg, a, k) :: (t2, a2, k2) :: rest, tops,
        .closeNm acc ([] ++ tg)⟩ '>'
      = some ⟨(t2, a2, XTree.elem (String.mk tg) a kf.reverse :: k2) :: rest, tops,
          .txt []⟩ := by
    simp only [List.nil_append, step]
    rw [if_neg (by decide : ¬ isNameChar '>' = true)]
    rw [if_pos trivial, if_neg (by simp [isEmpty_false_of_ne_nil htg])]
    unfold closeElem
    rw [hflush]
    simp [addNode]
  show runP _ ('<' :: ('/' :: (tg ++ ['>']))) = _
  rw [runP_cons h1, runP_cons h2]
  exact runP_seq h3 (by rw [runP_singleton]; exact h4)

/-- Closing the root element: the finished tree moves to the top
level. -/
theorem runP_closeTagRoot (tg : List Char) (a : List (String × String)) (k : List XTree)
    (tops : List XTree) (acc : List Char)
    (htg : tg ≠ []) (hchars : ∀ c ∈ tg, isNameChar c = true) :
    ∃ e, runP ⟨[(String.mk tg, a, k)], tops, .txt acc⟩ ('<' :: '/' :: tg ++ ['>'])
      = some ⟨[], e :: tops, .txt []⟩ := by
  obtain ⟨kf, hflush⟩ := flushTxt_shape (String.mk tg) a k [] tops (.closeNm acc tg) acc
  refine ⟨XTree.elem (String.mk tg) a kf.reverse, ?_⟩
  have h1 : step ⟨[(String.mk tg, a, k)], tops, .txt acc⟩ '<'
      = some ⟨[(String.mk tg, a, k)], tops, .ltSeen acc⟩ := by
    simp [step]
  have h2 : step ⟨[(String.mk tg, a, k)], tops, .ltSeen acc⟩ '/'
      = some ⟨[(String.mk tg, a, k)], tops, .closeNm acc []⟩ := by
    simp [step]
  have h3 := runP_closeNmAcc [(String.mk tg, a, k)] tops acc [] tg hchars
  have h4 : step ⟨[(String.mk tg, a, k)], tops, .closeNm acc ([] ++ tg)⟩ '>'
      = some ⟨[], XTree.elem (String.mk tg) a kf.reverse :: tops, .txt []⟩ := by
    simp only [List.nil_append, step]
    rw [if_neg (by decide : ¬ isNameChar '>' = true)]
    rw [if_pos trivial, if_neg (by simp [isEmpty_false_of_ne_nil htg])]
    unfold closeElem
    rw [hflush]
    simp [addNode]
  show runP _ ('<' :: ('/' :: (tg ++ ['>']))) = _
  rw [runP_cons h1, runP_cons h2]
  exact runP_seq h3 (by rw [runP_singleton]; exact h4)

/-- A whole element `<tg>content</tg>` with safe text content (also
covers empty elements). -/
theorem runP_textElem (tg content : List Char) (t : String)
    (a : List (String × String)) (k : List XTree)
    (rest : List PFrame) (tops : List XTree) (acc : List Char)
    (htg : tg ≠ []) (hchars : ∀ c ∈ tg, isNameChar c = true)
    (hcontent : ∀ c ∈ content, safeChar c = true) :
    ∃ k2, runP ⟨(t, a, k) :: rest, tops, .txt acc⟩
        (('<' :: tg ++ ['>']) ++ content ++ ('<' :: '/' :: tg ++ ['>']))
      = some ⟨(t, a, k2) :: rest, tops, .txt []⟩ := by
  obtain ⟨ko, ho⟩ := runP_openTag tg t a k rest tops acc htg hchars
  have htxt := runP_txt_safe ((String.mk tg, [], []) :: (t, a, ko) :: rest) tops [] content
    (by simp) hcontent
  obtain ⟨k3, hc⟩ := runP_closeTagInner tg [] [] t a ko rest tops content htg hchars
  refine ⟨k3, ?_⟩
  refine runP_seq (runP_seq ho ?_) hc
  simpa using htxt

theorem strData_append (s t : String) : (s ++ t).data = s.data ++ t.data := by
  cases s
  cases t
  rfl

theorem safeStr_mem {s : String} (h : safeStr s = true) :
    ∀ c ∈ s.data, safeChar c = true := by
  intro c hc
  exact List.all_eq_true.mp h c hc

/-- The `.get` on `type_mapping` only ever returns one of the six
Mendix type names, all of which are XML-safe. -/
theorem typeMappingGet_safe (tv : YVal) (m : String) (h : typeMappingGet tv = .ok m) :
    safeStr m = true := by
  unfold typeMappingGet at h
  split at h
  · cases h
  · injection h with h2
    subst h2
    split <;> decide

theorem fragW_nil : fragRunW [] := by
  intro t a k rest tops acc
  exact ⟨k, acc, rfl⟩

theorem fragW_append {s1 s2 : List Char} (h1 : fragRunW s1) (h2 : fragRunW s2) :
    fragRunW (s1 ++ s2) := by
  intro t a k rest tops acc
  obtain ⟨k2, acc2, hr1⟩ := h1 t a k rest tops acc
  obtain ⟨k3, acc3, hr2⟩ := h2 t a k2 rest tops acc2
  exact ⟨k3, acc3, runP_seq hr1 hr2⟩

theorem fragW_text {s : List Char} (hs : ∀ c ∈ s, safeChar c = true) : fragRunW s := by
  intro t a k rest tops acc
  exact ⟨k, acc ++ s, runP_txt_safe _ tops acc s (by simp) hs⟩

/-- A whole safe-text element, with leading safe character data, is a
well-behaved fragment. -/
theorem fragW_textElem (pre tg content : List Char)
    (hpre : ∀ c ∈ pre, safeChar c = true)
    (htg : tg ≠ []) (htgc : ∀ c ∈ tg, isNameChar c = true)
    (hc : ∀ c ∈ content, safeChar c = true) :
    fragRunW (pre ++ (('<' :: tg ++ ['>'])
      ++ (content ++ ('<' :: '/' :: tg ++ ['>'])))) := by
  intro t a k rest tops acc
  have h1 := runP_txt_safe ((t, a, k) :: rest) tops acc pre (by simp) hpre
  obtain ⟨k2, h2⟩ := runP_textElem tg content t a k rest tops (acc ++ pre) htg htgc hc
  refine ⟨k2, [], ?_⟩
  refine runP_seq h1 ?_
  have h3 : ('<' :: tg ++ ['>']) ++ (content ++ ('<' :: '/' :: tg ++ ['>']))
      = ('<' :: tg ++ ['>']) ++ content ++ ('<' :: '/' :: tg ++ ['>']) := by
    simp [List.append_assoc]
  rw [h3]
  exact h2

theorem step_inTag_ws (stack : List PFrame) (tops : List XTree) (t : String)
    (as_ : List (String × String)) {c : Char} (hc : isXmlWs c = true) :
    step ⟨stack, tops, .inTag t as_⟩ c = some ⟨stack, tops, .inTag t as_⟩ := by
  simp [step, hc]

theorem step_inTag_gt (stack : List PFrame) (tops : List XTree) (t : String)
    (as_ : List (String × String)) :
    step ⟨stack, tops, .inTag t as_⟩ '>'
      = some ⟨(t, as_, []) :: stack, tops, .txt []⟩ := by
  simp [step, isXmlWs, isNameChar]

theorem step_attrClose (stack : List PFrame) (tops : List XTree) (t : String)
    (as_ : List (String × String)) (an : String) (acc : List Char)
    (hdup : (as_.map Prod.fst).contains an = false) :
    step ⟨stack, tops, .attrVal t as_ an '"' acc⟩ '"'
      = some ⟨stack, tops, .inTag t (as_ ++ [(an, String.mk acc)])⟩ := by
  simp only [step]
  rw [hdup]
  simp

/-- `<tg ` read from character data: pending text is flushed and the
parser waits for attributes of the new tag. -/
theorem runP_openToInTag (tg : List Char) (t : String) (a : List (String × String))
    (k : List XTree) (rest : List PFrame) (tops : List XTree) (acc : List Char)
    (htg : tg ≠ []) (hchars : ∀ c ∈ tg, isNameChar c = true) :
    ∃ k2, runP ⟨(t, a, k) :: rest, tops, .txt acc⟩ ('<' :: tg ++ [' '])
      = some ⟨(t, a, k2) :: rest, tops, .inTag (String.mk tg) []⟩ := by
  obtain ⟨c0, tgr, rfl⟩ : ∃ c0 tgr, tg = c0 :: tgr := by
    cases tg with
    | nil => exact absurd rfl htg
    | cons c0 tgr => exact ⟨c0, tgr, rfl⟩
  have hc0 := hchars c0 (by simp)
  obtain ⟨hs1, hs2, hs3, _, _, _, _, _⟩ := isNameChar_facts hc0
  obtain ⟨k2, hflush⟩ := flushTxt_shape t a k rest tops (.ltSeen acc) acc
  refine ⟨k2, ?_⟩
  have h1 : step ⟨(t, a, k) :: rest, tops, .txt acc⟩ '<'
      = some ⟨(t, a, k) :: rest, tops, .ltSeen acc⟩ := by
    simp [step]
  have h2 : step ⟨(t, a, k) :: rest, tops, .ltSeen acc⟩ c0
      = some ⟨(t, a, k2) :: rest, tops, .openName [c0]⟩ := by
    simp only [step]
    rw [if_neg hs1, if_neg hs2, if_neg hs3, if_pos hc0, hflush]
  have h3 := runP_openName ((t, a, k2) :: rest) tops [c0] tgr
    (fun x hx => hchars x (by simp [hx]))
  have h4 : step ⟨(t, a, k2) :: rest, tops, .openName ([c0] ++ tgr)⟩ ' '
      = some ⟨(t, a, k2) :: rest, tops, .inTag (String.mk (c0 :: tgr)) []⟩ := by
    simp [step, isNameChar, isXmlWs]
  show runP _ ('<' :: ((c0 :: tgr) ++ [' '])) = _
  rw [runP_cons h1]
  show runP _ (c0 :: (tgr ++ [' '])) = _
  rw [runP_cons h2]
  exact runP_seq h3 (by rw [runP_singleton]; exact h4)

/-- One `name="value"` attribute read while inside a start tag. -/
theorem runP_inTag_attr (stack : List PFrame) (tops : List XTree) (t : String)
    (as_ : List (String × String)) (an val : List Char)
    (han : an ≠ []) (hanc : ∀ c ∈ an, isNameChar c = true)
    (hval : ∀ c ∈ val, safeChar c = true)
    (hdup : (as_.map Prod.fst).contains (String.mk an) = false) :
    runP ⟨stack, tops, .inTag t as_⟩ (an ++ ('=' :: '"' :: (val ++ ['"'])))
      = some ⟨stack, tops, .inTag t (as_ ++ [(String.mk an, String.mk val)])⟩ := by
  obtain ⟨c0, anr, rfl⟩ : ∃ c0 anr, an = c0 :: anr := by
    cases an with
    | nil => exact absurd rfl han
    | cons c0 anr => exact ⟨c0, anr, rfl⟩
  have hc0 := hanc c0 (by simp)
  obtain ⟨_, _, _, _, _, hws, _, _⟩ := isNameChar_facts hc0
  have h1 : step ⟨stack, tops, .inTag t as_⟩ c0
      = some ⟨stack, tops, .attrNm t as_ [c0]⟩ := by
    simp only [step]
    rw [if_neg (by simp [hws]), if_pos hc0]
  have h2 := runP_attrNmAcc stack tops t as_ [c0] anr
    (fun x hx => hanc x (by simp [hx]))
  have h3 : step ⟨stack, tops, .attrNm t as_ ([c0] ++ anr)⟩ '='
      = some ⟨stack, tops, .attrEq t as_ (String.mk (c0 :: anr))⟩ := by
    simp [step, isNameChar]
  have h4 : step ⟨stack, tops, .attrEq t as_ (String.mk (c0 :: anr))⟩ '"'
      = some ⟨stack, tops, .attrVal t as_ (String.mk (c0 :: anr)) '"' []⟩ := by
    simp [step, isXmlWs]
  have h5 : runP ⟨stack, tops, .attrVal t as_ (String.mk (c0 :: anr)) '"' []⟩ val
      = some ⟨stack, tops, .attrVal t as_ (String.mk (c0 :: anr)) '"' val⟩ := by
    simpa using runP_attr_safe stack tops t as_ (String.mk (c0 :: anr)) [] val hval
  have h6 := step_attrClose stack tops t as_ (String.mk (c0 :: anr)) val hdup
  show runP _ ((c0 :: anr) ++ ('=' :: '"' :: (val ++ ['"']))) = _
  rw [List.cons_append, runP_cons h1]
  refine runP_seq h2 ?_
  rw [runP_cons h3, runP_cons h4]
  exact runP_seq h5 (by rw [runP_singleton]; exact h6)

/-- A safe-text-wrapped element hosting a well-behaved inner fragment
is itself well behaved. -/
theorem fragW_wrap (pre tg inner mid : List Char)
    (hpre : ∀ c ∈ pre, safeChar c = true)
    (htg : tg ≠ []) (htgc : ∀ c ∈ tg, isNameChar c = true)
    (hinner : fragRunW inner)
    (hmid : ∀ c ∈ mid, safeChar c = true) :
    fragRunW (pre ++ (('<' :: tg ++ ['>'])
      ++ (inner ++ (mid ++ ('<' :: '/' :: tg ++ ['>']))))) := by
  intro t a k rest tops acc
  have h1 := runP_txt_safe ((t, a, k) :: rest) tops acc pre (by simp) hpre
  obtain ⟨k2, h2⟩ := runP_openTag tg t a k rest tops (acc ++ pre) htg htgc
  obtain ⟨ki, acci, h3⟩ := hinner (String.mk tg) [] [] ((t, a, k2) :: rest) tops []
  have h4 := runP_txt_safe ((String.mk tg, [], ki) :: (t, a, k2) :: rest) tops acci mid
    (by simp) hmid
  obtain ⟨k3, h5⟩ := runP_closeTagInner tg [] ki t a k2 rest tops (acci ++ mid) htg htgc
  exact ⟨k3, [], runP_seq h1 (runP_seq h2 (runP_seq h3 (runP_seq h4 h5)))⟩

/-- One attribute fragment of `attributes_xml`: the start tag with its
two attributes, the documentation element, a branch-specific tail and
the end tag. -/
theorem fragW_attrFrag (N M D tl : List Char)
    (hN : ∀ c ∈ N, safeChar c = true) (hM : ∀ c ∈ M, safeChar c = true)
    (hD : ∀ c ∈ D, safeChar c = true) (htl : fragRunW tl) :
    fragRunW ("\n        ".data
      ++ (('<' :: "attribute".data ++ [' '])
        ++ (("name".data ++ ('=' :: '"' :: (N ++ ['"'])))
          ++ ([' ']
            ++ (("type".data ++ ('=' :: '"' :: (M ++ ['"'])))
              ++ (['>']
                ++ ((("\n            ".data
                      ++ (('<' :: "documentation".data ++ ['>'])
                        ++ (D ++ ('<' :: '/' :: "documentation".data ++ ['>']))))
                    ++ tl)
                  ++ ("\n        ".data
                    ++ ('<' :: '/' :: "attribute".data ++ ['>']))))))))) := by
  intro t a k rest tops acc
  have h1 := runP_txt_safe ((t, a, k) :: rest) tops acc ("\n        ".data)
    (by simp) (by decide)
  obtain ⟨k2, h2⟩ := runP_openToInTag ("attribute".data) t a k rest tops
    (acc ++ "\n        ".data) (by decide) (by decide)
  have h3 := runP_inTag_attr ((t, a, k2) :: rest) tops (String.mk "attribute".data) []
    ("name".data) N (by decide) (by decide) hN (by decide)
  have h4 : runP ⟨(t, a, k2) :: rest, tops, .inTag (String.mk "attribute".data)
      ([] ++ [(String.mk "name".data, String.mk N)])⟩ [' ']
      = some ⟨(t, a, k2) :: rest, tops, .inTag (String.mk "attribute".data)
          ([] ++ [(String.mk "name".data, String.mk N)])⟩ := by
    rw [runP_singleton]
    exact step_inTag_ws _ _ _ _ (by decide)
  have h5 := runP_inTag_attr ((t, a, k2) :: rest) tops (String.mk "attribute".data)
    ([] ++ [(String.mk "name".data, String.mk N)]) ("type".data) M
    (by decide) (by decide) hM
    (by
      have hmap : (([] ++ [(String.mk "name".data, String.mk N)]).map Prod.fst)
          = [String.mk "name".data] := rfl
      rw [hmap]
      decide)
  have h6 : runP ⟨(t, a, k2) :: rest, tops, .inTag (String.mk "attribute".data)
      (([] ++ [(String.mk "name".data, String.mk N)])
        ++ [(String.mk "type".data, String.mk M)])⟩ ['>']
      = some ⟨(String.mk "attribute".data,
          ([] ++ [(String.mk "name".data, String.mk N)])
            ++ [(String.mk "type".data, String.mk M)], [])
          :: (t, a, k2) :: rest, tops, .txt []⟩ := by
    rw [runP_singleton]
    exact step_inTag_gt _ _ _ _
  have hdocfrag := fragW_textElem ("\n            ".data) ("documentation".data) D
    (by decide) (by decide) (by decide) hD
  obtain ⟨kd, accd, h7⟩ := (fragW_append hdocfrag htl) (String.mk "attribute".data)
    (([] ++ [(String.mk "name".data, String.mk N)])
      ++ [(String.mk "type".data, String.mk M)]) []
    ((t, a, k2) :: rest) tops []
  have h8 := runP_txt_safe ((String.mk "attribute".data,
      ([] ++ [(String.mk "name".data, String.mk N)])
        ++ [(String.mk "type".data, String.mk M)], kd) :: (t, a, k2) :: rest) tops accd
    ("\n        ".data) (by simp) (by decide)
  obtain ⟨k3, h9⟩ := runP_closeTagInner ("attribute".data)
    (([] ++ [(String.mk "name".data, String.mk N)])
      ++ [(String.mk "type".data, String.mk M)]) kd t a k2 rest tops
    (accd ++ "\n        ".data) (by decide) (by decide)
  exact ⟨k3, [], runP_seq h1 (runP_seq h2 (runP_seq h3 (runP_seq h4 (runP_seq h5
    (runP_seq h6 (runP_seq h7 (runP_seq h8 h9)))))))⟩

theorem splitAttrOpen : "\n        <attribute name=\"".data
    = "\n        ".data ++ (('<' :: "attribute".data ++ [' '])
      ++ ("name".data ++ ['=', '"'])) := by decide

theorem splitAttrMid : "\" type=\"".data
    = ['"'] ++ ([' '] ++ ("type".data ++ ['=', '"'])) := by decide

theorem splitAttrDoc : "\">\n            <documentation>".data
    = ['"'] ++ (['>'] ++ ("\n            ".data
      ++ ('<' :: "documentation".data ++ ['>']))) := by decide

theorem splitAttrTailStr :
    "</documentation>\n            <value></value>\n        </attribute>".data
    = ('<' :: '/' :: "documentation".data ++ ['>'])
      ++ (("\n            ".data ++ (('<' :: "value".data ++ ['>'])
        ++ ('<' :: '/' :: "value".data ++ ['>'])))
      ++ ("\n        ".data ++ ('<' :: '/' :: "attribute".data ++ ['>']))) := by decide

theorem splitAttrTailEnumA :
    "</documentation>\n            <enumeration>".data
    = ('<' :: '/' :: "documentation".data ++ ['>'])
      ++ ("\n            ".data ++ ('<' :: "enumeration".data ++ ['>'])) := by decide

theorem splitAttrTailEnumB : "</enumeration>\n        </attribute>".data
    = ('<' :: '/' :: "enumeration".data ++ ['>'])
      ++ ("\n        ".data ++ ('<' :: '/' :: "attribute".data ++ ['>'])) := by decide

theorem splitAttrTailGen : "</documentation>\n        </attribute>".data
    = ('<' :: '/' :: "documentation".data ++ ['>'])
      ++ ("\n        ".data ++ ('<' :: '/' :: "attribute".data ++ ['>'])) := by decide

/-- On an XML-safe attribute record the loop body succeeds and its
fragment is well behaved inside any open element. -/
theorem entityAttrXml_clean (a : YVal) (h : cleanAttr a = true) :
    ∃ s, entityAttrXml a = .ok s ∧ fragRunW s.data := by
  cases a with
  | str s => simp [cleanAttr] at h
  | int n => simp [cleanAttr] at h
  | bool b => simp [cleanAttr] at h
  | null => simp [cleanAttr] at h
  | list xs => simp [cleanAttr] at h
  | map kvs =>
    simp only [cleanAttr, Bool.and_eq_true] at h
    obtain ⟨⟨⟨hname, htype⟩, hdesc⟩, henum⟩ := h
    cases hn : YVal.lookup kvs "name" with
    | none => rw [hn] at hname; exact Bool.noConfusion hname
    | some nv =>
    cases nv with
    | int m => rw [hn] at hname; exact Bool.noConfusion hname
    | bool b => rw [hn] at hname; exact Bool.noConfusion hname
    | null => rw [hn] at hname; exact Bool.noConfusion hname
    | list xs => rw [hn] at hname; exact Bool.noConfusion hname
    | map m2 => rw [hn] at hname; exact Bool.noConfusion hname
    | str n =>
    have hnameS : safeStr n = true := by rw [hn] at hname; exact hname
    cases ht : YVal.lookup kvs "type" with
    | none => rw [ht] at htype; exact Bool.noConfusion htype
    | some tv =>
    have htvh : YVal.hashable tv = true := by rw [ht] at htype; exact htype
    obtain ⟨M, hM⟩ := typeMappingGet_ok tv htvh
    have hMsafe := typeMappingGet_safe tv M hM
    obtain ⟨descS, hgetD, hDsafe⟩ :
        ∃ ds, YVal.getD kvs "description" (.str (n ++ " attribute")) = .str ds
          ∧ safeStr ds = true := by
      cases hd : YVal.lookup kvs "description" with
      | none =>
        refine ⟨n ++ " attribute", by simp [YVal.getD, hd], ?_⟩
        show (n ++ " attribute").data.all safeChar = true
        rw [strData_append, List.all_append, Bool.and_eq_true]
        exact ⟨hnameS, by decide⟩
      | some dv =>
        cases dv with
        | str d =>
          refine ⟨d, by simp [YVal.getD, hd], ?_⟩
          rw [hd] at hdesc; exact hdesc
        | int m => rw [hd] at hdesc; exact Bool.noConfusion hdesc
        | bool b => rw [hd] at hdesc; exact Bool.noConfusion hdesc
        | null => rw [hd] at hdesc; exact Bool.noConfusion hdesc
        | list xs => rw [hd] at hdesc; exact Bool.noConfusion hdesc
        | map m2 => rw [hd] at hdesc; exact Bool.noConfusion hdesc
    obtain ⟨enumS, hgetE, hEsafe⟩ :
        ∃ es, YVal.getD kvs "enum_name" (.str (n ++ "Enum")) = .str es
          ∧ safeStr es = true := by
      cases he : YVal.lookup kvs "enum_name" with
      | none =>
        refine ⟨n ++ "Enum", by simp [YVal.getD, he], ?_⟩
        show (n ++ "Enum").data.all safeChar = true
        rw [strData_append, List.all_append, Bool.and_eq_true]
        exact ⟨hnameS, by decide⟩
      | some ev =>
        cases ev with
        | str e =>
          refine ⟨e, by simp [YVal.getD, he], ?_⟩
          rw [he] at henum; exact henum
        | int m => rw [he] at henum; exact Bool.noConfusion henum
        | bool b => rw [he] at henum; exact Bool.noConfusion henum
        | null => rw [he] at henum; exact Bool.noConfusion henum
        | list xs => rw [he] at henum; exact Bool.noConfusion henum
        | map m2 => rw [he] at henum; exact Bool.noConfusion henum
    simp only [entityAttrXml, YVal.getItem, YVal.getAttr, ht, hn, hM, YVal.strPy,
      hgetD, hgetE, exceptOkBind]
    by_cases h1 : M = "String"
    · subst h1
      rw [if_pos rfl]
      refine ⟨_, rfl, ?_⟩
      have htail := fragW_textElem ("\n            ".data) ("value".data) []
        (by decide) (by decide) (by decide) (by simp)
      have hfrag := fragW_attrFrag n.data "String".data descS.data
        ("\n            ".data ++ (('<' :: "value".data ++ ['>'])
          ++ ([] ++ ('<' :: '/' :: "value".data ++ ['>']))))
        (safeStr_mem hnameS) (by decide) (safeStr_mem hDsafe) htail
      simp only [strData_append, splitAttrOpen, splitAttrMid, splitAttrDoc, splitAttrTailStr,
        List.append_assoc, List.cons_append, List.nil_append, List.append_nil]
      simp only [List.append_assoc, List.cons_append, List.nil_append, List.append_nil]
        at hfrag
      exact hfrag
    · rw [if_neg h1]
      by_cases h2 : M = "Enumeration"
      · subst h2
        rw [if_pos rfl]
        refine ⟨_, rfl, ?_⟩
        have htail := fragW_textElem ("\n            ".data) ("enumeration".data)
          enumS.data (by decide) (by decide) (by decide) (safeStr_mem hEsafe)
        have hfrag := fragW_attrFrag n.data "Enumeration".data descS.data
          ("\n            ".data ++ (('<' :: "enumeration".data ++ ['>'])
            ++ (enumS.data ++ ('<' :: '/' :: "enumeration".data ++ ['>']))))
          (safeStr_mem hnameS) (by decide) (safeStr_mem hDsafe) htail
        simp only [strData_append, splitAttrOpen, splitAttrMid, splitAttrDoc,
          splitAttrTailEnumA, splitAttrTailEnumB,
          List.append_assoc, List.cons_append, List.nil_append, List.append_nil]
        simp only [List.append_assoc, List.cons_append, List.nil_append, List.append_nil]
          at hfrag
        exact hfrag
      · rw [if_neg h2]
        refine ⟨_, rfl, ?_⟩
        have hfrag := fragW_attrFrag n.data M.data descS.data []
          (safeStr_mem hnameS) (safeStr_mem hMsafe) (safeStr_mem hDsafe) fragW_nil
        simp only [strData_append, splitAttrOpen, splitAttrMid, splitAttrDoc, splitAttrTailGen,
          List.append_assoc, List.cons_append, List.nil_append, List.append_nil]
        simp only [List.append_assoc, List.cons_append, List.nil_append, List.append_nil]
          at hfrag
        exact hfrag

/-- The `attributes_xml` fold over XML-safe records succeeds and its
result is a well-behaved fragment (given a well-behaved seed). -/
theorem entityFold_clean (attrs : List YVal) (h : ∀ a ∈ attrs, cleanAttr a = true) :
    ∀ acc : String, fragRunW acc.data →
      ∃ s, (attrs.foldlM (fun acc a => do pure (acc ++ (← entityAttrXml a))) acc
        : Except String String) = .ok s ∧ fragRunW s.data := by
  induction attrs with
  | nil => exact fun acc hacc => ⟨acc, rfl, hacc⟩
  | cons a as ih =>
    intro acc hacc
    obtain ⟨s₁, hs₁, hw₁⟩ := entityAttrXml_clean a (h a (by simp))
    obtain ⟨s₂, hs₂, hw₂⟩ := ih (fun b hb => h b (by simp [hb])) (acc ++ s₁)
      (by rw [strData_append]; exact fragW_append hacc hw₁)
    refine ⟨s₂, ?_, hw₂⟩
    rw [List.foldlM_cons]
    simp only [hs₁, exceptOkBind, exceptPureBind]
    exact hs₂

theorem splitDocClose : "\">\n".data = ['"'] ++ (['>'] ++ "\n".data) := by decide

theorem splitDocOpen : "    <documentation>LAB Workflow Entity: ".data
    = "    ".data ++ (('<' :: "documentation".data ++ ['>'])
      ++ "LAB Workflow Entity: ".data) := by decide

theorem splitDocEnd : " - Generated for Mendix 10.18.1</documentation>\n".data
    = " - Generated for Mendix 10.18.1".data
      ++ (('<' :: '/' :: "documentation".data ++ ['>']) ++ "\n".data) := by decide

theorem splitAttrsOpen : "    <attributes>".data
    = "    ".data ++ ('<' :: "attributes".data ++ ['>']) := by decide

theorem splitAttrsClose : "    </attributes>\n".data
    = "    ".data ++ (('<' :: '/' :: "attributes".data ++ ['>']) ++ "\n".data) := by decide

theorem splitAssoc : "    <associations></associations>\n".data
    = "    ".data ++ (('<' :: "associations".data ++ ['>'])
      ++ (('<' :: '/' :: "associations".data ++ ['>']) ++ "\n".data)) := by decide

theorem splitIdx : "    <indexes></indexes>\n".data
    = "    ".data ++ (('<' :: "indexes".data ++ ['>'])
      ++ (('<' :: '/' :: "indexes".data ++ ['>']) ++ "\n".data)) := by decide

theorem splitRules : "    <rules></rules>\n".data
    = "    ".data ++ (('<' :: "rules".data ++ ['>'])
      ++ (('<' :: '/' :: "rules".data ++ ['>']) ++ "\n".data)) := by decide

theorem splitEvt : "    <eventHandlers></eventHandlers>\n".data
    = "    ".data ++ (('<' :: "eventHandlers".data ++ ['>'])
      ++ (('<' :: '/' :: "eventHandlers".data ++ ['>']) ++ "\n".data)) := by decide

theorem splitEntityClose : "</entity>".data
    = '<' :: '/' :: "entity".data ++ ['>'] := by decide

/-- The full entity document template is well-formed whenever the
interpolated name is XML-safe and the generalization and attributes
fragments are well behaved. -/
theorem entityDoc_valid (nm gX sA : String)
    (hnm : safeStr nm = true) (hG : fragRunW gX.data) (hA : fragRunW sA.data) :
    validate_xml_syntax ("<?xml version=\"1.0\" encoding=\"UTF-8\"?>\n"
      ++ "<entity xmlns=\"http://www.mendix.com/metamodel/Domain/7.0.0\" \n"
      ++ "        xmlns:xsi=\"http://www.w3.org/2001/XMLSchema-instance\" \n"
      ++ "        name=\"" ++ nm ++ "\">\n"
      ++ "    <documentation>LAB Workflow Entity: " ++ nm
      ++ " - Generated for Mendix 10.18.1</documentation>\n"
      ++ "    " ++ gX ++ "\n"
      ++ "    <attributes>" ++ sA ++ "\n"
      ++ "    </attributes>\n"
      ++ "    <associations></associations>\n"
      ++ "    <indexes></indexes>\n"
      ++ "    <rules></rules>\n"
      ++ "    <eventHandlers></eventHandlers>\n"
      ++ "</entity>") = true := by
  have h1 : runP initP "<?xml version=\"1.0\" encoding=\"UTF-8\"?>\n".data
      = some ⟨[], [], .txt ['\n']⟩ := by rfl
  have h2 : runP ⟨[], [], .txt ['\n']⟩
      "<entity xmlns=\"http://www.mendix.com/metamodel/Domain/7.0.0\" \n".data
      = some ⟨[], [], .inTag "entity"
          [("xmlns", "http://www.mendix.com/metamodel/Domain/7.0.0")]⟩ := by rfl
  have h3 : runP ⟨[], [], .inTag "entity"
        [("xmlns", "http://www.mendix.com/metamodel/Domain/7.0.0")]⟩
      "        xmlns:xsi=\"http://www.w3.org/2001/XMLSchema-instance\" \n".data
      = some ⟨[], [], .inTag "entity"
          [("xmlns", "http://www.mendix.com/metamodel/Domain/7.0.0"),
           ("xmlns:xsi", "http://www.w3.org/2001/XMLSchema-instance")]⟩ := by rfl
  have h4 : runP ⟨[], [], .inTag "entity"
        [("xmlns", "http://www.mendix.com/metamodel/Domain/7.0.0"),
         ("xmlns:xsi", "http://www.w3.org/2001/XMLSchema-instance")]⟩
      "        name=\"".data
      = some ⟨[], [], .attrVal "entity"
          [("xmlns", "http://www.mendix.com/metamodel/Domain/7.0.0"),
           ("xmlns:xsi", "http://www.w3.org/2001/XMLSchema-instance")] "name" '"' []⟩ := by
    rfl
  have h5 : runP ⟨[], [], .attrVal "entity"
        [("xmlns", "http://www.mendix.com/metamodel/Domain/7.0.0"),
         ("xmlns:xsi", "http://www.w3.org/2001/XMLSchema-instance")] "name" '"' []⟩ nm.data
      = some ⟨[], [], .attrVal "entity"
          [("xmlns", "http://www.mendix.com/metamodel/Domain/7.0.0"),
           ("xmlns:xsi", "http://www.w3.org/2001/XMLSchema-instance")] "name" '"' nm.data⟩ := by
    simpa using runP_attr_safe [] []
      "entity" [("xmlns", "http://www.mendix.com/metamodel/Domain/7.0.0"),
        ("xmlns:xsi", "http://www.w3.org/2001/XMLSchema-instance")]
      "name" [] nm.data (safeStr_mem hnm)
  have h6 : runP ⟨[], [], .attrVal "entity"
        [("xmlns", "http://www.mendix.com/metamodel/Domain/7.0.0"),
         ("xmlns:xsi", "http://www.w3.org/2001/XMLSchema-instance")] "name" '"' nm.data⟩ ['"']
      = some ⟨[], [], .inTag "entity"
          ([("xmlns", "http://www.mendix.com/metamodel/Domain/7.0.0"),
            ("xmlns:xsi", "http://www.w3.org/2001/XMLSchema-instance")]
            ++ [("name", String.mk nm.data)])⟩ := by
    rw [runP_singleton]
    exact step_attrClose [] [] "entity"
      [("xmlns", "http://www.mendix.com/metamodel/Domain/7.0.0"),
       ("xmlns:xsi", "http://www.w3.org/2001/XMLSchema-instance")] "name" nm.data (by decide)
  have h7 : runP ⟨[], [], .inTag "entity"
        ([("xmlns", "http://www.mendix.com/metamodel/Domain/7.0.0"),
          ("xmlns:xsi", "http://www.w3.org/2001/XMLSchema-instance")]
          ++ [("name", String.mk nm.data)])⟩ ['>']
      = some ⟨[("entity",
          [("xmlns", "http://www.mendix.com/metamodel/Domain/7.0.0"),
           ("xmlns:xsi", "http://www.w3.org/2001/XMLSchema-instance")]
            ++ [("name", String.mk nm.data)], [])], [], .txt []⟩ := by
    rw [runP_singleton]
    exact step_inTag_gt _ _ _ _
  have hcontent : ∀ c ∈ ("LAB Workflow Entity: ".data
      ++ (nm.data ++ " - Generated for Mendix 10.18.1".data)), safeChar c = true := by
    intro c hc
    rcases List.mem_append.mp hc with hx | hx
    · exact (by decide : ∀ c ∈ "LAB Workflow Entity: ".data, safeChar c = true) c hx
    · rcases List.mem_append.mp hx with hy | hy
      · exact safeStr_mem hnm c hy
      · exact (by decide :
          ∀ c ∈ " - Generated for Mendix 10.18.1".data, safeChar c = true) c hy
  obtain ⟨k8, a8, h8⟩ := fragW_textElem ("\n".data ++ "    ".data) ("documentation".data)
    ("LAB Workflow Entity: ".data ++ (nm.data ++ " - Generated for Mendix 10.18.1".data))
    (by decide) (by decide) (by decide) hcontent
    "entity" ([("xmlns", "http://www.mendix.com/metamodel/Domain/7.0.0"),
      ("xmlns:xsi", "http://www.w3.org/2001/XMLSchema-instance")]
      ++ [("name", String.mk nm.data)]) [] [] [] []
  obtain ⟨k9, a9, h9⟩ := fragW_append
    (fragW_text (by decide : ∀ c ∈ "\n".data ++ "    ".data, safeChar c = true)) hG
    "entity" ([("xmlns", "http://www.mendix.com/metamodel/Domain/7.0.0"),
      ("xmlns:xsi", "http://www.w3.org/2001/XMLSchema-instance")]
      ++ [("name", String.mk nm.data)]) k8 [] [] a8
  obtain ⟨k10, a10, h10⟩ := fragW_wrap ("\n".data ++ "    ".data) ("attributes".data)
    sA.data ("\n".data ++ "    ".data) (by decide) (by decide) (by decide) hA (by decide)
    "entity" ([("xmlns", "http://www.mendix.com/metamodel/Domain/7.0.0"),
      ("xmlns:xsi", "http://www.w3.org/2001/XMLSchema-instance")]
      ++ [("name", String.mk nm.data)]) k9 [] [] a9
  obtain ⟨k11, a11, h11⟩ := fragW_textElem ("\n".data ++ "    ".data) ("associations".data)
    [] (by decide) (by decide) (by decide) (by simp)
    "entity" ([("xmlns", "http://www.mendix.com/metamodel/Domain/7.0.0"),
      ("xmlns:xsi", "http://www.w3.org/2001/XMLSchema-instance")]
      ++ [("name", String.mk nm.data)]) k10 [] [] a10
  obtain ⟨k12, a12, h12⟩ := fragW_textElem ("\n".data ++ "    ".data) ("indexes".data)
    [] (by decide) (by decide) (by decide) (by simp)
    "entity" ([("xmlns", "http://www.mendix.com/metamodel/Domain/7.0.0"),
      ("xmlns:xsi", "http://www.w3.org/2001/XMLSchema-instance")]
      ++ [("name", String.mk nm.data)]) k11 [] [] a11
  obtain ⟨k13, a13, h13⟩ := fragW_textElem ("\n".data ++ "    ".data) ("rules".data)
    [] (by decide) (by decide) (by decide) (by simp)
    "entity" ([("xmlns", "http://www.mendix.com/metamodel/Domain/7.0.0"),
      ("xmlns:xsi", "http://www.w3.org/2001/XMLSchema-instance")]
      ++ [("name", String.mk nm.data)]) k12 [] [] a12
  obtain ⟨k14, a14, h14⟩ := fragW_textElem ("\n".data ++ "    ".data) ("eventHandlers".data)
    [] (by decide) (by decide) (by decide) (by simp)
    "entity" ([("xmlns", "http://www.mendix.com/metamodel/Domain/7.0.0"),
      ("xmlns:xsi", "http://www.w3.org/2001/XMLSchema-instance")]
      ++ [("name", String.mk nm.data)]) k13 [] [] a13
  have h15a := runP_txt_safe [("entity",
      [("xmlns", "http://www.mendix.com/metamodel/Domain/7.0.0"),
       ("xmlns:xsi", "http://www.w3.org/2001/XMLSchema-instance")]
        ++ [("name", String.mk nm.data)], k14)] [] a14 "\n".data (by simp) (by decide)
  obtain ⟨e, h15b⟩ := runP_closeTagRoot ("entity".data)
    ([("xmlns", "http://www.mendix.com/metamodel/Domain/7.0.0"),
      ("xmlns:xsi", "http://www.w3.org/2001/XMLSchema-instance")]
      ++ [("name", String.mk nm.data)]) k14 [] (a14 ++ "\n".data) (by decide) (by decide)
  have hrun := runP_seq h1 (runP_seq h2 (runP_seq h3 (runP_seq h4 (runP_seq h5
    (runP_seq h6 (runP_seq h7 (runP_seq h8 (runP_seq h9 (runP_seq h10 (runP_seq h11
    (runP_seq h12 (runP_seq h13 (runP_seq h14 (runP_seq h15a h15b))))))))))))))
  unfold validate_xml_syntax parseXml
  simp only [strData_append, splitDocClose, splitDocOpen, splitDocEnd, splitAttrsOpen,
    splitAttrsClose, splitAssoc, splitIdx, splitRules, splitEvt, splitEntityClose,
    List.append_assoc, List.cons_append, List.nil_append, List.append_nil]
  simp only [List.append_assoc, List.cons_append, List.nil_append, List.append_nil] at hrun
  rw [hrun]
  rfl

theorem splitGenOpen : "<generalization>System.".data
    = ('<' :: "generalization".data ++ ['>']) ++ "System.".data := by decide

theorem splitGenClose : "</generalization>".data
    = '<' :: '/' :: "generalization".data ++ ['>'] := by decide

/-- The generalization fragment for a safe parent-entity name. -/
theorem fragW_gen (g : String) (hg : safeStr g = true) :
    fragRunW ("<generalization>System." ++ g ++ "</generalization>").data := by
  have hsafe : ∀ c ∈ ("System.".data ++ g.data), safeChar c = true := by
    intro c hc
    rcases List.mem_append.mp hc with hx | hx
    · exact (by decide : ∀ c ∈ "System.".data, safeChar c = true) c hx
    · exact safeStr_mem hg c hx
  have hfrag := fragW_textElem [] ("generalization".data) ("System.".data ++ g.data)
    (by simp) (by decide) (by decide) hsafe
  simp only [strData_append, splitGenOpen, splitGenClose,
    List.append_assoc, List.cons_append, List.nil_append, List.append_nil]
  simp only [List.append_assoc, List.cons_append, List.nil_append, List.append_nil] at hfrag
  exact hfrag

/-- C3 counterexample: the builder performs no XML escaping, so a
record whose description contains a raw ampersand yields a document
that `validate_xml_syntax` (that is, `ET.parse`) rejects. -/
theorem c3_counterexample :
    ∃ s, generate_entity_xml "Sample"
        [.map [("name", .str "Count"), ("type", .str "Integer"),
               ("description", .str "Tracks & counts")]] none = .ok s
      ∧ validate_xml_syntax s = false := by
  refine ⟨_, rfl, ?_⟩
  decide

/-- C3 (amended): for records whose free-text field values avoid the
XML-special characters (ampersand, angle brackets and both quote
kinds), the serialized entity document is well-formed: it parses back
without error, so `validate_xml_syntax` accepts it.  (The original
claim, which includes values containing those characters, is refuted
by the counterexample.) -/
theorem c3_amended (nm : String) (attrs : List YVal) (gen : Option String)
    (hnm : safeStr nm = true)
    (hgen : ∀ g, gen = some g → safeStr g = true)
    (hattrs : ∀ a ∈ attrs, cleanAttr a = true) :
    ∃ s, generate_entity_xml nm attrs gen = .ok s ∧ validate_xml_syntax s = true := by
  obtain ⟨sA, hfoldOk, hfoldW⟩ := entityFold_clean attrs hattrs ""
    (by
      have h0 : ("" : String).data = ([] : List Char) := rfl
      rw [h0]
      exact fragW_nil)
  cases gen with
  | none =>
    have hGnil : fragRunW ("" : String).data := by
      have h0 : ("" : String).data = ([] : List Char) := rfl
      rw [h0]
      exact fragW_nil
    refine ⟨_, ?_, entityDoc_valid nm "" sA hnm hGnil hfoldW⟩
    unfold generate_entity_xml
    simp only [hfoldOk, exceptOkBind, exceptPureBind]
    rfl
  | some g =>
    refine ⟨_, ?_, entityDoc_valid nm
      ("<generalization>System." ++ g ++ "</generalization>") sA hnm
      (fragW_gen g (hgen g rfl)) hfoldW⟩
    unfold generate_entity_xml
    simp only [hfoldOk, exceptOkBind, exceptPureBind]
    rfl

/-- Witness for C3 (amended) at a concrete safe record. -/
theorem c3_witness :
    ∃ s, generate_entity_xml "Sample"
        [.map [("name", .str "Count"), ("type", .str "Integer"),
               ("description", .str "Total number of runs")]] (some "AuditBase") = .ok s
      ∧ validate_xml_syntax s = true :=
  c3_amended "Sample"
    [.map [("name", .str "Count"), ("type", .str "Integer"),
           ("description", .str "Total number of runs")]] (some "AuditBase")
    (by decide)
    (fun g hg => by injection hg with h2; subst h2; decide)
    (by decide)

end LabGen
